import Mathlib

/-!
# Grid of Spheres (`src/Main.cpp`): picking, animation and geometry

A shallow embedding of the program state and of the code that reads or writes
it: the mouse-button callback (picking), the render loop's clock tick and
per-cell transform, the sphere vertex generator and the fragment shader's
highlight test.

Scalars are rationals: every finite `float`/`double` value is a rational
number.  The definitions of the first part take the arithmetic exactly (no
rounding); the namespace `Binary32` repeats the picker, the cell centres and
the clock tick with every operation rounded as IEEE 754 prescribes (binary32
for `float`, binary64 for `double`, round to nearest, ties to even, each
operation evaluated in the type of its operands; overflow to infinity is not
modelled).  The library functions `sin`, `cos` and the constant
`glm::pi<float>()` are parameters.
-/

set_option autoImplicit false

namespace GridOfSpheres

/-! ## Program state (`Main.cpp:11-13`) -/

/-- The three globals of the program. -/
structure State where
  isSphereSelected : Bool
  selectedSphereIndex : Int
  elapsedTime : ℚ
  deriving DecidableEq

/-- State at program start: `false`, `-1`, `0.0f`. -/
def State.initial : State :=
  { isSphereSelected := false, selectedSphereIndex := -1, elapsedTime := 0 }

/-- The value of `GLFW_MOUSE_BUTTON_LEFT` in `GLFW/glfw3.h`. -/
def GLFW_MOUSE_BUTTON_LEFT : Int := 0

/-- The value of `GLFW_PRESS` in `GLFW/glfw3.h`. -/
def GLFW_PRESS : Int := 1

/-- Values taken by the loop variable of `for (int i = 0; i < 6; ++i)`. -/
def gridIndices : List Int := [0, 1, 2, 3, 4, 5]

/-! ## Picking (`mouse_button_callback`, `Main.cpp:88-114`) -/

/-- Line 94, `x = xpos / 800.0 * 2.0 - 1.0`, taken exactly (no rounding);
`Binary32.normX` is the rounded form. -/
def normX (xpos : ℚ) : ℚ := xpos / 800 * 2 - 1

/-- Line 95, `y = 1.0 - ypos / 800.0 * 2.0`, taken exactly; `Binary32.normY` is
the rounded form. -/
def normY (ypos : ℚ) : ℚ := 1 - ypos / 800 * 2

/-- Line 100, `sphereX = (i - 2) * 0.4f`, taken exactly; `Binary32.sphereX` is
the rounded form. -/
def sphereX (i : Int) : ℚ := ((i - 2 : Int) : ℚ) * 0.4

/-- Line 101, `sphereY = (j - 2) * 0.4f`, taken exactly; `Binary32.sphereY` is
the rounded form. -/
def sphereY (j : Int) : ℚ := ((j - 2 : Int) : ℚ) * 0.4

/-- Line 102: the hit test of cell `(i, j)` against the normalised point, with
exact edges; `Binary32.hitTest` has the rounded edges. -/
def hitTest (x y : ℚ) (i j : Int) : Bool :=
  decide (x ≥ sphereX i - 0.1) && decide (x ≤ sphereX i + 0.1) &&
    decide (y ≥ sphereY j - 0.1) && decide (y ≤ sphereY j + 0.1)

/-- Inner loop (lines 99-107) over the remaining values of `j`: `some k` when
the function returns from inside the loop with `selectedSphereIndex = k`. -/
def scanRow (x y : ℚ) (i : Int) : List Int → Option Int
  | [] => none
  | j :: js => if hitTest x y i j then some (i * 6 + j) else scanRow x y i js

/-- Outer loop (lines 98-108) over the remaining values of `i`. -/
def scanGrid (x y : ℚ) : List Int → Option Int
  | [] => none
  | i :: is =>
    match scanRow x y i gridIndices with
    | some k => some k
    | none => scanGrid x y is

/-- The callback of lines 88-114; `(xpos, ypos)` is what `glfwGetCursorPos`
stores. -/
def mouse_button_callback (st : State) (button action mods : Int) (xpos ypos : ℚ) : State :=
  let _ := mods
  if button = GLFW_MOUSE_BUTTON_LEFT ∧ action = GLFW_PRESS then
    let x := normX xpos
    let y := normY ypos
    match scanGrid x y gridIndices with
    | some k => { st with isSphereSelected := true, selectedSphereIndex := k }
    | none => { st with isSphereSelected := false, selectedSphereIndex := -1 }
  else st

/-- The selection pair of a state. -/
def State.selection (st : State) : Bool × Int :=
  (st.isSphereSelected, st.selectedSphereIndex)

/-! ## Library scalars -/

/-- The scalar library the program calls: `sin`, `cos` (`<cmath>`) and
`glm::pi<float>()`.  Their values are not fixed here. -/
structure FloatLib where
  sin : ℚ → ℚ
  cos : ℚ → ℚ
  pi : ℚ

/-! ## Render loop (`main`, `Main.cpp:212-258`) -/

/-- A `glm::vec3`. -/
structure Vec3 where
  x : ℚ
  y : ℚ
  z : ℚ
  deriving DecidableEq

/-- A `glm::mat4`, recorded as the sequence of glm calls that builds it:
`glm::mat4(1.0f)`, `glm::translate(m, v)`, `glm::rotate(m, angle, axis)`. -/
inductive Mat4 where
  | identity : Mat4
  | translate (m : Mat4) (v : Vec3) : Mat4
  | rotate (m : Mat4) (angle : ℚ) (axis : Vec3) : Mat4
  deriving DecidableEq

/-- The three `material.*` uniforms set before a draw call. -/
structure Material where
  ambient : Vec3
  diffuse : Vec3
  specular : Vec3
  deriving DecidableEq

/-- One `glDrawArrays` call with the uniforms bound for it. -/
structure DrawCall where
  model : Mat4
  material : Material
  deriving DecidableEq

/-- Line 213, `elapsedTime += 0.016f`, taken exactly (no rounding);
`Binary32.tick` is the rounded form. -/
def tick (st : State) : State :=
  { st with elapsedTime := st.elapsedTime + 0.016 }

/-- Lines 223-229: the model matrix of cell `(i, j)`. -/
def cellModel (L : FloatLib) (st : State) (i j : Int) : Mat4 :=
  let model := Mat4.translate Mat4.identity
    ⟨((i - 2 : Int) : ℚ) * 0.4, ((j - 2 : Int) : ℚ) * 0.4, 0.2 * L.sin st.elapsedTime⟩
  if st.isSphereSelected && st.selectedSphereIndex == i * 6 + j then
    let rotationAngle := st.elapsedTime * L.pi
    Mat4.rotate model rotationAngle ⟨0, 0, 1⟩
  else model

/-- Lines 232-241: the material bound for cell `(i, j)`. -/
def cellMaterial (st : State) (i j : Int) : Material :=
  if st.isSphereSelected && st.selectedSphereIndex == i * 6 + j then
    { ambient := ⟨0.4, 0.4, 0.4⟩, diffuse := ⟨1, 1, 1⟩, specular := ⟨1, 1, 1⟩ }
  else
    { ambient := ⟨0.2, 0.2, 0.2⟩, diffuse := ⟨0.8, 0.8, 0.8⟩, specular := ⟨1, 1, 1⟩ }

/-- Inner loop of lines 222-247: the draw calls of row `i` for the remaining
values of `j`. -/
def drawRow (L : FloatLib) (st : State) (i : Int) : List Int → List DrawCall
  | [] => []
  | j :: js => { model := cellModel L st i j, material := cellMaterial st i j } :: drawRow L st i js

/-- Outer loop of lines 221-248 for the remaining values of `i`. -/
def drawGrid (L : FloatLib) (st : State) : List Int → List DrawCall
  | [] => []
  | i :: is => drawRow L st i gridIndices ++ drawGrid L st is

/-- One iteration of the render loop up to the buffer swap (lines 213-255):
the state after the clock tick and the 36 draw calls, in order. -/
def renderFrame (L : FloatLib) (st : State) : State × List DrawCall :=
  let st' := tick st
  (st', drawGrid L st' gridIndices)

/-- Lines 84-86: only calls `glViewport`; no global is written. -/
def framebuffer_size_callback (st : State) (width height : Int) : State :=
  let _ := (width, height)
  st

/-- Lines 116-120: only calls `glfwSetWindowShouldClose`; no global is
written. -/
def processInput (st : State) (escapePressed : Bool) : State :=
  let _ := escapePressed
  st

/-- What can happen to the program state while the loop runs. -/
inductive Event where
  | frame : Event
  | mouseButton (button action mods : Int) (xpos ypos : ℚ) : Event
  | framebufferSize (width height : Int) : Event
  | input (escapePressed : Bool) : Event
  deriving DecidableEq

/-- Whether an event is a frame of the render loop. -/
def Event.isFrame : Event → Bool
  | Event.frame => true
  | _ => false

/-- Whether an event is a left-button press. -/
def Event.isLeftPress : Event → Bool
  | Event.mouseButton button action _ _ _ =>
    decide (button = GLFW_MOUSE_BUTTON_LEFT ∧ action = GLFW_PRESS)
  | _ => false

/-- The state after one event. -/
def step (st : State) : Event → State
  | Event.frame => tick st
  | Event.mouseButton button action mods xpos ypos =>
    mouse_button_callback st button action mods xpos ypos
  | Event.framebufferSize width height => framebuffer_size_callback st width height
  | Event.input escapePressed => processInput st escapePressed

/-- The state after a sequence of events. -/
def run (st : State) (events : List Event) : State :=
  events.foldl step st

/-! ## Sphere vertices (`main`, `Main.cpp:165-181`) -/

/-- Lines 165-181 with `numStacks` for the constant `stacks` and `numSectors`
for `sectors`: the vector starts empty and each inner iteration pushes `x`,
`y`, `z`. -/
def sphereVertices (L : FloatLib) (numStacks numSectors : Nat) (radius : ℚ) : List ℚ :=
  (List.range (numStacks + 1)).foldl (fun verts (i : Nat) =>
    let stackAngle := L.pi * (i : ℚ) / (numStacks : ℚ)
    (List.range (numSectors + 1)).foldl (fun verts (j : Nat) =>
      let sectorAngle := 2 * L.pi * (j : ℚ) / (numSectors : ℚ)
      let x := radius * L.sin stackAngle * L.cos sectorAngle
      let y := radius * L.sin stackAngle * L.sin sectorAngle
      let z := radius * L.cos stackAngle
      ((verts.concat x).concat y).concat z) verts) []

/-! ## Fragment shader highlight test (`Main.cpp:76-78`) -/

/-- GLSL `int(f)`: the fractional part is dropped. -/
def truncToInt (q : ℚ) : Int :=
  if 0 ≤ q then ⌊q⌋ else ⌈q⌉

/-- The x index the shader compares against: `selectedSphereIndex % 6`. -/
def shaderXIndex (selectedSphereIndex : Int) : Int :=
  selectedSphereIndex.tmod 6

/-- The y index the shader compares against: `selectedSphereIndex / 6`. -/
def shaderYIndex (selectedSphereIndex : Int) : Int :=
  selectedSphereIndex.tdiv 6

/-- Line 76: the condition under which the lit colour is multiplied by 2.5. -/
def highlightTest (isSelected : Bool) (selectedSphereIndex : Int) (fragX fragY : ℚ) : Bool :=
  isSelected && truncToInt (fragX * 6) == shaderXIndex selectedSphereIndex &&
    truncToInt (fragY * 6) == shaderYIndex selectedSphereIndex

/-! ## The same code with IEEE 754 rounding -/

namespace Binary32

/-- The integer nearest to `q`, the even one of the two when `q` lies half way. -/
def roundNearestEven (q : ℚ) : Int :=
  let f := ⌊q⌋
  if q - f < 1 / 2 then f
  else if 1 / 2 < q - f then f + 1
  else if f % 2 = 0 then f else f + 1

/-- Position of the leading bit of `n`, found by halving at most `fuel` times. -/
def log2Fuel : Nat → Nat → Nat
  | 0, _ => 0
  | fuel + 1, n => if 2 ≤ n then log2Fuel fuel (n / 2) + 1 else 0

/-- The exponent `k` with `2 ^ k ≤ |q| < 2 ^ (k + 1)`, for `q ≠ 0`. -/
def floorLog2 (q : ℚ) : Int :=
  let e : Int := (log2Fuel q.num.natAbs q.num.natAbs : Int) - (log2Fuel q.den q.den : Int)
  if (2 : ℚ) ^ e ≤ |q| then e else e - 1

/-- Exponent of the unit in the last place of `q` in a binary format with
`prec` significand bits whose least subnormal is `2 ^ emin`. -/
def ulpExponent (prec : Nat) (emin : Int) (q : ℚ) : Int :=
  max (floorLog2 q - ((prec : Int) - 1)) emin

/-- Rounding to nearest, ties to even, in that format. -/
def roundBinary (prec : Nat) (emin : Int) (q : ℚ) : ℚ :=
  (roundNearestEven (q / (2 : ℚ) ^ ulpExponent prec emin q) : ℚ) *
    (2 : ℚ) ^ ulpExponent prec emin q

/-- Rounding to `float` (binary32). -/
def roundF32 (q : ℚ) : ℚ := roundBinary 24 (-149) q

/-- Rounding to `double` (binary64). -/
def roundF64 (q : ℚ) : ℚ := roundBinary 53 (-1074) q

/-- Line 94: `float x = static_cast<float>(xpos) / 800.0 * 2.0 - 1.0`; the
cursor is narrowed to `float`, the three operations are `double` operations,
and the result is stored in a `float`. -/
def normX (xpos : ℚ) : ℚ :=
  roundF32 (roundF64 (roundF64 (roundF64 (roundF32 xpos / 800) * 2) - 1))

/-- Line 95: `float y = 1.0 - static_cast<float>(ypos) / 800.0 * 2.0`. -/
def normY (ypos : ℚ) : ℚ :=
  roundF32 (roundF64 (1 - roundF64 (roundF64 (roundF32 ypos / 800) * 2)))

/-- Line 100: `float sphereX = (i - 2) * 0.4f`. -/
def sphereX (i : Int) : ℚ := roundF32 (((i - 2 : Int) : ℚ) * roundF32 0.4)

/-- Line 101: `float sphereY = (j - 2) * 0.4f`. -/
def sphereY (j : Int) : ℚ := roundF32 (((j - 2 : Int) : ℚ) * roundF32 0.4)

/-- Line 102: the hit test, on `float` values against `float` edges. -/
def hitTest (x y : ℚ) (i j : Int) : Bool :=
  decide (x ≥ roundF32 (sphereX i - roundF32 0.1)) &&
    decide (x ≤ roundF32 (sphereX i + roundF32 0.1)) &&
    decide (y ≥ roundF32 (sphereY j - roundF32 0.1)) &&
    decide (y ≤ roundF32 (sphereY j + roundF32 0.1))

/-- Inner loop (lines 99-107) over the remaining values of `j`. -/
def scanRow (x y : ℚ) (i : Int) : List Int → Option Int
  | [] => none
  | j :: js => if hitTest x y i j then some (i * 6 + j) else scanRow x y i js

/-- Outer loop (lines 98-108) over the remaining values of `i`. -/
def scanGrid (x y : ℚ) : List Int → Option Int
  | [] => none
  | i :: is =>
    match scanRow x y i gridIndices with
    | some k => some k
    | none => scanGrid x y is

/-- The callback of lines 88-114; `(xpos, ypos)` is the pair of `double`
values that `glfwGetCursorPos` stores. -/
def mouse_button_callback (st : State) (button action mods : Int) (xpos ypos : ℚ) : State :=
  let _ := mods
  if button = GLFW_MOUSE_BUTTON_LEFT ∧ action = GLFW_PRESS then
    let x := normX xpos
    let y := normY ypos
    match scanGrid x y gridIndices with
    | some k => { st with isSphereSelected := true, selectedSphereIndex := k }
    | none => { st with isSphereSelected := false, selectedSphereIndex := -1 }
  else st

/-- Line 223: the first argument `(i - 2) * 0.4f` of the translation vector. -/
def translationX (i : Int) : ℚ := roundF32 (((i - 2 : Int) : ℚ) * roundF32 0.4)

/-- Line 223: the second argument `(j - 2) * 0.4f` of the translation vector. -/
def translationY (j : Int) : ℚ := roundF32 (((j - 2 : Int) : ℚ) * roundF32 0.4)

/-- Line 213: `elapsedTime += 0.016f`, a `float` addition. -/
def tick (st : State) : State :=
  { st with elapsedTime := roundF32 (st.elapsedTime + roundF32 0.016) }

/-- The state after one event. -/
def step (st : State) : Event → State
  | Event.frame => tick st
  | Event.mouseButton button action mods xpos ypos =>
    mouse_button_callback st button action mods xpos ypos
  | Event.framebufferSize width height => framebuffer_size_callback st width height
  | Event.input escapePressed => processInput st escapePressed

/-- The state after a sequence of events. -/
def run (st : State) (events : List Event) : State :=
  events.foldl step st

end Binary32

/-! ## Facts about the picker -/

theorem hitTest_iff (x y : ℚ) (i j : Int) :
    hitTest x y i j = true ↔
      (sphereX i - 0.1 ≤ x ∧ x ≤ sphereX i + 0.1) ∧
        (sphereY j - 0.1 ≤ y ∧ y ≤ sphereY j + 0.1) := by
  simp [hitTest, and_assoc]

/-- Two cells whose centres are within `0.2` of one point on an axis have the
same index on that axis. -/
theorem index_eq_of_close (a b : Int) (x : ℚ)
    (ha : ((a - 2 : Int) : ℚ) * 0.4 - 0.1 ≤ x ∧ x ≤ ((a - 2 : Int) : ℚ) * 0.4 + 0.1)
    (hb : ((b - 2 : Int) : ℚ) * 0.4 - 0.1 ≤ x ∧ x ≤ ((b - 2 : Int) : ℚ) * 0.4 + 0.1) :
    a = b := by
  obtain ⟨ha1, ha2⟩ := ha
  obtain ⟨hb1, hb2⟩ := hb
  push_cast at ha1 ha2 hb1 hb2
  have h1 : ((a : ℚ) - b) < 1 := by linarith
  have h2 : ((b : ℚ) - a) < 1 := by linarith
  have h1' : a - b < 1 := by exact_mod_cast h1
  have h2' : b - a < 1 := by exact_mod_cast h2
  omega

/-- The boxes of two different cells have no point in common. -/
theorem hitTest_unique (x y : ℚ) (i j i' j' : Int)
    (h : hitTest x y i j = true) (h' : hitTest x y i' j' = true) : i = i' ∧ j = j' := by
  rw [hitTest_iff] at h h'
  exact ⟨index_eq_of_close i i' x h.1 h'.1, index_eq_of_close j j' y h.2 h'.2⟩

theorem scanRow_eq_none (x y : ℚ) (i : Int) (js : List Int) :
    scanRow x y i js = none ↔ ∀ j ∈ js, hitTest x y i j = false := by
  induction js with
  | nil => simp [scanRow]
  | cons j js ih =>
    by_cases h : hitTest x y i j = true
    · simp [scanRow, h]
    · simp [scanRow, h, ih]

theorem scanRow_eq_some (x y : ℚ) (i : Int) (js : List Int) (k : Int)
    (h : scanRow x y i js = some k) : ∃ j ∈ js, hitTest x y i j = true ∧ k = i * 6 + j := by
  induction js with
  | nil => simp [scanRow] at h
  | cons j js ih =>
    by_cases hj : hitTest x y i j = true
    · simp [scanRow, hj] at h
      exact ⟨j, by simp, hj, h.symm⟩
    · simp [scanRow, hj] at h
      obtain ⟨j', hm, hh, hk⟩ := ih h
      exact ⟨j', by simp [hm], hh, hk⟩

theorem scanGrid_eq_none (x y : ℚ) (is : List Int) :
    scanGrid x y is = none ↔ ∀ i ∈ is, ∀ j ∈ gridIndices, hitTest x y i j = false := by
  induction is with
  | nil => simp [scanGrid]
  | cons i is ih =>
    cases hr : scanRow x y i gridIndices with
    | none =>
      have := (scanRow_eq_none x y i gridIndices).1 hr
      simp only [scanGrid, hr, ih, List.mem_cons, forall_eq_or_imp]
      exact ⟨fun h => ⟨this, h⟩, fun h => h.2⟩
    | some k =>
      obtain ⟨j, hm, hh, -⟩ := scanRow_eq_some x y i gridIndices k hr
      simp only [scanGrid, hr, List.mem_cons, forall_eq_or_imp]
      constructor
      · intro h; cases h
      · intro h
        have := h.1 j hm
        simp [hh] at this

theorem scanGrid_eq_some (x y : ℚ) (is : List Int) (k : Int)
    (h : scanGrid x y is = some k) :
    ∃ i ∈ is, ∃ j ∈ gridIndices, hitTest x y i j = true ∧ k = i * 6 + j := by
  induction is with
  | nil => simp [scanGrid] at h
  | cons i is ih =>
    cases hr : scanRow x y i gridIndices with
    | none =>
      simp only [scanGrid, hr] at h
      obtain ⟨i', hm, rest⟩ := ih h
      exact ⟨i', by simp [hm], rest⟩
    | some k' =>
      simp only [scanGrid, hr, Option.some.injEq] at h
      subst h
      obtain ⟨j, hm, hh, hk⟩ := scanRow_eq_some x y i gridIndices k' hr
      exact ⟨i, by simp, j, hm, hh, hk⟩

theorem mem_gridIndices (i : Int) : i ∈ gridIndices ↔ 0 ≤ i ∧ i < 6 := by
  simp only [gridIndices, List.mem_cons, List.mem_singleton, List.not_mem_nil, or_false]
  omega

/-- A point in the box of cell `(i, j)` makes the scan return `i * 6 + j`. -/
theorem scanGrid_of_hit (x y : ℚ) (i j : Int) (hi : i ∈ gridIndices) (hj : j ∈ gridIndices)
    (h : hitTest x y i j = true) : scanGrid x y gridIndices = some (i * 6 + j) := by
  cases hs : scanGrid x y gridIndices with
  | none =>
    have := (scanGrid_eq_none x y gridIndices).1 hs i hi j hj
    simp [h] at this
  | some k =>
    obtain ⟨i', -, j', -, hh, hk⟩ := scanGrid_eq_some x y gridIndices k hs
    obtain ⟨e1, e2⟩ := hitTest_unique x y i j i' j' h hh
    subst e1 e2
    rw [hk]

/-- What a left-button press does, whatever the state and the modifier keys. -/
theorem callback_left_press (st : State) (mods : Int) (xpos ypos : ℚ) :
    mouse_button_callback st GLFW_MOUSE_BUTTON_LEFT GLFW_PRESS mods xpos ypos =
      match scanGrid (normX xpos) (normY ypos) gridIndices with
      | some k => { st with isSphereSelected := true, selectedSphereIndex := k }
      | none => { st with isSphereSelected := false, selectedSphereIndex := -1 } := by
  simp [mouse_button_callback]

/-- An event that is not a left-button press leaves the whole state alone. -/
theorem callback_other (st : State) (button action mods : Int) (xpos ypos : ℚ)
    (h : ¬ (button = GLFW_MOUSE_BUTTON_LEFT ∧ action = GLFW_PRESS)) :
    mouse_button_callback st button action mods xpos ypos = st := by
  simp [mouse_button_callback, h]

/-- C3: the selection after a left-button press is a function of the cursor
position alone (it is the same from any two prior states, under any modifier
keys), and handling two consecutive left presses at one position leaves the
same state as handling one. -/
theorem C3_picking_deterministic_idempotent (st st' : State) (mods mods' : Int) (xpos ypos : ℚ) :
    (mouse_button_callback st GLFW_MOUSE_BUTTON_LEFT GLFW_PRESS mods xpos ypos).selection =
        (mouse_button_callback st' GLFW_MOUSE_BUTTON_LEFT GLFW_PRESS mods' xpos ypos).selection ∧
      mouse_button_callback
          (mouse_button_callback st GLFW_MOUSE_BUTTON_LEFT GLFW_PRESS mods xpos ypos)
          GLFW_MOUSE_BUTTON_LEFT GLFW_PRESS mods' xpos ypos =
        mouse_button_callback st GLFW_MOUSE_BUTTON_LEFT GLFW_PRESS mods xpos ypos := by
  simp only [callback_left_press]
  cases scanGrid (normX xpos) (normY ypos) gridIndices <;> exact ⟨rfl, rfl⟩

/-! ## Render loop -/

theorem length_foldl_add {β : Type} (f : List ℚ → β → List ℚ) (c : Nat)
    (hf : ∀ acc b, (f acc b).length = acc.length + c) (l : List β) (acc : List ℚ) :
    (l.foldl f acc).length = acc.length + c * l.length := by
  induction l generalizing acc with
  | nil => simp
  | cons b l ih =>
    rw [List.foldl_cons, ih, hf, List.length_cons]
    ring

/-- C5: the generated sequence has exactly `3 * (stacks + 1) * (sectors + 1)`
scalars for every `stacks` and `sectors` (1323 for 20 and 20), and equal
arguments give equal sequences. -/
theorem C5_sphere_vertices_length (L : FloatLib) (numStacks numSectors : Nat) (radius : ℚ) :
    (sphereVertices L numStacks numSectors radius).length =
        3 * (numStacks + 1) * (numSectors + 1) ∧
      (sphereVertices L 20 20 radius).length = 1323 ∧
      ∀ (L' : FloatLib) (numStacks' numSectors' : Nat) (radius' : ℚ),
        L' = L → numStacks' = numStacks → numSectors' = numSectors → radius' = radius →
          sphereVertices L' numStacks' numSectors' radius' =
            sphereVertices L numStacks numSectors radius := by
  have len : ∀ a b : Nat, (sphereVertices L a b radius).length = 3 * (a + 1) * (b + 1) := by
    intro a b
    unfold sphereVertices
    rw [length_foldl_add _ (3 * (b + 1))]
    · simp only [List.length_nil, List.length_range]
      ring
    · intro acc i
      rw [length_foldl_add _ 3]
      · simp only [List.length_range]
      · intro acc' j
        simp
  refine ⟨len _ _, ?_, ?_⟩
  · rw [len]
  · rintro L' a b r rfl rfl rfl rfl
    rfl

/-- C5, concrete input: with the program's constants the sequence has 1323
scalars, and a second run with the same arguments gives the same sequence. -/
theorem C5_sphere_vertices_length_witness :
    (sphereVertices ⟨fun _ => 0, fun _ => 1, 355 / 113⟩ 20 20 0.1).length = 1323 ∧
      sphereVertices ⟨fun _ => 0, fun _ => 1, 355 / 113⟩ 20 20 0.1 =
        sphereVertices ⟨fun _ => 0, fun _ => 1, 355 / 113⟩ 20 20 0.1 :=
  ⟨(C5_sphere_vertices_length ⟨fun _ => 0, fun _ => 1, 355 / 113⟩ 20 20 0.1).2.1,
    (C5_sphere_vertices_length ⟨fun _ => 0, fun _ => 1, 355 / 113⟩ 20 20 0.1).2.2
      ⟨fun _ => 0, fun _ => 1, 355 / 113⟩ 20 20 0.1 rfl rfl rfl rfl⟩

/-! ## Elapsed time in exact arithmetic -/

theorem iterate_renderFrame_elapsedTime (L : FloatLib) (n : Nat) (st : State) :
    ((fun s => (renderFrame L s).1)^[n] st).elapsedTime = st.elapsedTime + (n : ℚ) * 0.016 := by
  induction n generalizing st with
  | zero => simp
  | succ n ih =>
    rw [Function.iterate_succ_apply, ih]
    simp only [renderFrame, tick]
    push_cast
    ring

/-! ## Selection state invariant -/

/-- After a left press the index is in `[-1, 35]` and the flag is set exactly
when the index is not `-1`. -/
theorem callback_left_press_range (st : State) (mods : Int) (xpos ypos : ℚ) :
    -1 ≤ (mouse_button_callback st GLFW_MOUSE_BUTTON_LEFT GLFW_PRESS mods xpos ypos).selectedSphereIndex ∧
      (mouse_button_callback st GLFW_MOUSE_BUTTON_LEFT GLFW_PRESS mods xpos ypos).selectedSphereIndex ≤ 35 ∧
      ((mouse_button_callback st GLFW_MOUSE_BUTTON_LEFT GLFW_PRESS mods xpos ypos).isSphereSelected = true ↔
        (mouse_button_callback st GLFW_MOUSE_BUTTON_LEFT GLFW_PRESS mods xpos ypos).selectedSphereIndex ≠ -1) := by
  rw [callback_left_press]
  cases hs : scanGrid (normX xpos) (normY ypos) gridIndices with
  | none => simp
  | some k =>
    obtain ⟨i, hi, j, hj, -, rfl⟩ := scanGrid_eq_some _ _ _ _ hs
    rw [mem_gridIndices] at hi hj
    simp only [true_iff]
    omega

theorem step_selection_of_not_leftPress (st : State) (e : Event) (h : e.isLeftPress = false) :
    (step st e).selection = st.selection := by
  cases e with
  | frame => rfl
  | mouseButton button action mods xpos ypos =>
    simp only [Event.isLeftPress, decide_eq_false_iff_not] at h
    simp only [step]
    rw [callback_other st button action mods xpos ypos h]
  | framebufferSize w h => rfl
  | input esc => rfl

theorem step_invariant (st : State) (e : Event)
    (h : -1 ≤ st.selectedSphereIndex ∧ st.selectedSphereIndex ≤ 35 ∧
      (st.isSphereSelected = true ↔ st.selectedSphereIndex ≠ -1)) :
    -1 ≤ (step st e).selectedSphereIndex ∧ (step st e).selectedSphereIndex ≤ 35 ∧
      ((step st e).isSphereSelected = true ↔ (step st e).selectedSphereIndex ≠ -1) := by
  by_cases hl : e.isLeftPress = true
  · cases e with
    | mouseButton button action mods xpos ypos =>
      simp only [Event.isLeftPress, decide_eq_true_eq] at hl
      obtain ⟨rfl, rfl⟩ := hl
      exact callback_left_press_range st mods xpos ypos
    | frame => simp [Event.isLeftPress] at hl
    | framebufferSize w h => simp [Event.isLeftPress] at hl
    | input esc => simp [Event.isLeftPress] at hl
  · have hs := step_selection_of_not_leftPress st e (by simpa using hl)
    simp only [State.selection, Prod.mk.injEq] at hs
    rw [hs.1, hs.2]
    exact h

theorem run_invariant (events : List Event) (st : State)
    (h : -1 ≤ st.selectedSphereIndex ∧ st.selectedSphereIndex ≤ 35 ∧
      (st.isSphereSelected = true ↔ st.selectedSphereIndex ≠ -1)) :
    -1 ≤ (run st events).selectedSphereIndex ∧ (run st events).selectedSphereIndex ≤ 35 ∧
      ((run st events).isSphereSelected = true ↔ (run st events).selectedSphereIndex ≠ -1) := by
  induction events generalizing st with
  | nil => exact h
  | cons e es ih => exact ih (step st e) (step_invariant st e h)

/-- C8: in every state reachable from the initial state by a sequence of
events (mouse-button events with any button, action and cursor position,
frames, resizes, key polls), `selectedSphereIndex` lies in `[-1, 35]` and
`isSphereSelected` is true exactly when the index is not `-1`; an event other
than a left-button press leaves the pair unchanged. -/
theorem C8_selection_invariant (events : List Event) (st : State) (e : Event) :
    (-1 ≤ (run State.initial events).selectedSphereIndex ∧
        (run State.initial events).selectedSphereIndex ≤ 35) ∧
      ((run State.initial events).isSphereSelected = true ↔
        (run State.initial events).selectedSphereIndex ≠ -1) ∧
      (e.isLeftPress = false → (step st e).selection = st.selection) := by
  have h := run_invariant events State.initial (by simp [State.initial])
  exact ⟨⟨h.1, h.2.1⟩, h.2.2, step_selection_of_not_leftPress st e⟩

/-- C8, concrete input: a right-button press at the centre of cell 14 leaves
the initial selection in place. -/
theorem C8_selection_invariant_witness :
    (step State.initial (Event.mouseButton 1 1 0 400 400)).selection = State.initial.selection :=
  (C8_selection_invariant [] State.initial (Event.mouseButton 1 1 0 400 400)).2.2 (by decide)

/-! ## Cells reachable from inside the window -/

/-- C10: the picker stores `k = i * 6 + j` for the cell whose box is tested
with `i` on the x axis and `j` on the y axis, while the shader compares the
quantised x against `k % 6 = j` and the quantised y against `k / 6 = i`; so for
`i, j` in `[0,6)` the shader's pair equals `(i, j)` if and only if `i = j`. -/
theorem C10_shader_decodes_transposed (i j : Int) (hi : 0 ≤ i ∧ i < 6) (hj : 0 ≤ j ∧ j < 6) :
    (∀ x y : ℚ, hitTest x y i j = true → scanGrid x y gridIndices = some (i * 6 + j)) ∧
      (shaderXIndex (i * 6 + j) = j ∧ shaderYIndex (i * 6 + j) = i) ∧
      (∀ fragX fragY : ℚ, highlightTest true (i * 6 + j) fragX fragY = true ↔
        truncToInt (fragX * 6) = j ∧ truncToInt (fragY * 6) = i) ∧
      ((shaderXIndex (i * 6 + j), shaderYIndex (i * 6 + j)) = (i, j) ↔ i = j) := by
  have hX : shaderXIndex (i * 6 + j) = j := by
    unfold shaderXIndex
    rw [Int.tmod_eq_emod (by omega) (by omega)]
    omega
  have hY : shaderYIndex (i * 6 + j) = i := by
    unfold shaderYIndex
    rw [Int.tdiv_eq_ediv (by omega) (by omega)]
    omega
  refine ⟨?_, ⟨hX, hY⟩, ?_, ?_⟩
  · intro x y h
    exact scanGrid_of_hit x y i j ((mem_gridIndices i).2 hi) ((mem_gridIndices j).2 hj) h
  · intro fragX fragY
    simp [highlightTest, hX, hY]
  · rw [hX, hY, Prod.mk.injEq]
    constructor
    · rintro ⟨h, -⟩
      exact h.symm
    · rintro rfl
      exact ⟨rfl, rfl⟩

/-- C10, concrete input: the picked cell `(1, 3)` has index 9, which the shader
decodes as x index 3 and y index 1. -/
theorem C10_shader_decodes_transposed_witness :
    shaderXIndex (1 * 6 + 3) = 3 ∧ shaderYIndex (1 * 6 + 3) = 1 :=
  (C10_shader_decodes_transposed 1 3 (by decide) (by decide)).2.1

/-! ## Binary32 rounding -/

namespace Binary32

theorem log2Fuel_spec (fuel n : Nat) (h : n ≤ fuel) (hn : 0 < n) :
    2 ^ log2Fuel fuel n ≤ n ∧ n < 2 ^ (log2Fuel fuel n + 1) := by
  induction fuel generalizing n with
  | zero => omega
  | succ f ih =>
    by_cases h2 : 2 ≤ n
    · obtain ⟨h1, h3⟩ := ih (n / 2) (by omega) (by omega)
      simp only [log2Fuel, h2, if_true]
      have e1 : 2 ^ (log2Fuel f (n / 2) + 1) = 2 ^ log2Fuel f (n / 2) * 2 := pow_succ _ _
      have e2 : 2 ^ (log2Fuel f (n / 2) + 1 + 1) = 2 ^ log2Fuel f (n / 2) * 2 * 2 := by
        rw [pow_succ, pow_succ]
      rw [e1] at h3
      rw [e1, e2]
      generalize 2 ^ log2Fuel f (n / 2) = K at h1 h3
      omega
    · simp only [log2Fuel, h2, if_false]
      omega

theorem abs_eq_natAbs_div_den (q : ℚ) : |q| = (q.num.natAbs : ℚ) / (q.den : ℚ) := by
  conv_lhs => rw [← Rat.num_div_den q]
  rw [abs_div, Nat.cast_natAbs, Int.cast_abs, Nat.abs_cast]

theorem floorLog2_spec (q : ℚ) (hq : q ≠ 0) :
    (2 : ℚ) ^ floorLog2 q ≤ |q| ∧ |q| < (2 : ℚ) ^ (floorLog2 q + 1) := by
  have hn : 0 < q.num.natAbs := Int.natAbs_pos.2 (Rat.num_ne_zero.2 hq)
  have hd : 0 < q.den := q.den_pos
  obtain ⟨a1, a2⟩ := log2Fuel_spec q.num.natAbs q.num.natAbs le_rfl hn
  obtain ⟨b1, b2⟩ := log2Fuel_spec q.den q.den le_rfl hd
  have a1' : (2 : ℚ) ^ log2Fuel q.num.natAbs q.num.natAbs ≤ (q.num.natAbs : ℚ) := by
    exact_mod_cast a1
  have a2' : (q.num.natAbs : ℚ) < (2 : ℚ) ^ (log2Fuel q.num.natAbs q.num.natAbs + 1) := by
    exact_mod_cast a2
  have b1' : (2 : ℚ) ^ log2Fuel q.den q.den ≤ (q.den : ℚ) := by exact_mod_cast b1
  have b2' : (q.den : ℚ) < (2 : ℚ) ^ (log2Fuel q.den q.den + 1) := by exact_mod_cast b2
  have hd' : (0 : ℚ) < q.den := by exact_mod_cast hd
  have hn' : (0 : ℚ) < q.num.natAbs := by exact_mod_cast hn
  have hpA : (0 : ℚ) < 2 ^ log2Fuel q.num.natAbs q.num.natAbs := by positivity
  have hpB : (0 : ℚ) < 2 ^ log2Fuel q.den q.den := by positivity
  have he : (2 : ℚ) ^ ((log2Fuel q.num.natAbs q.num.natAbs : Int) - (log2Fuel q.den q.den : Int)) =
      2 ^ log2Fuel q.num.natAbs q.num.natAbs / 2 ^ log2Fuel q.den q.den := by
    rw [zpow_sub₀ (two_ne_zero), zpow_natCast, zpow_natCast]
  unfold floorLog2
  simp only
  split
  · rename_i h
    refine ⟨h, ?_⟩
    rw [zpow_add_one₀ two_ne_zero, he, abs_eq_natAbs_div_den]
    rw [div_mul_eq_mul_div, ← pow_succ]
    exact div_lt_div₀ a2' b1' (by positivity) hpB
  · rename_i h
    rw [sub_add_cancel]
    refine ⟨?_, lt_of_not_le h⟩
    rw [zpow_sub_one₀ two_ne_zero, he, abs_eq_natAbs_div_den, ← div_eq_mul_inv, div_div, ← pow_succ]
    exact div_le_div₀ hn'.le a1' hd' b2'.le

theorem floorLog2_unique (q : ℚ) (k : Int) (h1 : (2 : ℚ) ^ k ≤ |q|) (h2 : |q| < (2 : ℚ) ^ (k + 1)) :
    floorLog2 q = k := by
  have hq : q ≠ 0 := by
    rintro rfl
    have : (0 : ℚ) < 2 ^ k := by positivity
    simp at h1
    linarith
  obtain ⟨s1, s2⟩ := floorLog2_spec q hq
  have l1 : k < floorLog2 q + 1 := (zpow_lt_zpow_iff_right₀ (by norm_num : (1 : ℚ) < 2)).1 (lt_of_le_of_lt h1 s2)
  have l2 : floorLog2 q < k + 1 := (zpow_lt_zpow_iff_right₀ (by norm_num : (1 : ℚ) < 2)).1 (lt_of_le_of_lt s1 h2)
  omega

theorem roundNearestEven_near (q : ℚ) (m : Int) (h : |q - m| < 1 / 2) : roundNearestEven q = m := by
  have hf1 := Int.floor_le q
  have hf2 := Int.lt_floor_add_one q
  obtain ⟨h1, h2⟩ := abs_lt.1 h
  unfold roundNearestEven
  simp only
  split
  · rename_i hlt
    have u1 : ((⌊q⌋ : ℚ)) - m < 1 := by linarith
    have u2 : (m : ℚ) - ⌊q⌋ < 1 := by linarith
    have u1' : ⌊q⌋ - m < 1 := by exact_mod_cast u1
    have u2' : m - ⌊q⌋ < 1 := by exact_mod_cast u2
    omega
  · rename_i hnlt
    have u1 : ((⌊q⌋ : ℚ)) + 1 - m < 1 := by linarith
    have u2 : (m : ℚ) - (⌊q⌋ + 1) < 1 := by linarith
    have u1' : ⌊q⌋ + 1 - m < 1 := by exact_mod_cast u1
    have u2' : m - (⌊q⌋ + 1) < 1 := by exact_mod_cast u2
    have e : m = ⌊q⌋ + 1 := by omega
    split
    · exact e.symm
    · rename_i hn2
      exfalso
      have : q - ⌊q⌋ = 1 / 2 := le_antisymm (not_lt.1 hn2) (not_lt.1 hnlt)
      rw [e] at h1
      push_cast at h1
      linarith

theorem roundNearestEven_error (q : ℚ) : |(roundNearestEven q : ℚ) - q| ≤ 1 / 2 := by
  have hf1 := Int.floor_le q
  have hf2 := Int.lt_floor_add_one q
  rw [abs_le]
  unfold roundNearestEven
  simp only
  split
  · constructor <;> linarith
  · rename_i hnlt
    split
    · push_cast
      constructor <;> linarith
    · rename_i hn2
      have : q - ⌊q⌋ = 1 / 2 := le_antisymm (not_lt.1 hn2) (not_lt.1 hnlt)
      split
      · constructor <;> linarith
      · push_cast
        constructor <;> linarith

theorem roundBinary_error (prec : Nat) (emin : Int) (q : ℚ) :
    |roundBinary prec emin q - q| ≤ (2 : ℚ) ^ ulpExponent prec emin q / 2 := by
  have hp : (0 : ℚ) < (2 : ℚ) ^ ulpExponent prec emin q := by positivity
  have h := roundNearestEven_error (q / (2 : ℚ) ^ ulpExponent prec emin q)
  unfold roundBinary
  have e : (roundNearestEven (q / (2 : ℚ) ^ ulpExponent prec emin q) : ℚ) * (2 : ℚ) ^ ulpExponent prec emin q - q =
      ((roundNearestEven (q / (2 : ℚ) ^ ulpExponent prec emin q) : ℚ) - q / (2 : ℚ) ^ ulpExponent prec emin q) *
        (2 : ℚ) ^ ulpExponent prec emin q := by
    field_simp
  rw [e, abs_mul, abs_of_pos hp]
  calc _ ≤ 1 / 2 * (2 : ℚ) ^ ulpExponent prec emin q := mul_le_mul_of_nonneg_right h hp.le
    _ = _ := by ring

theorem ulpExponent_binary32 (q : ℚ) :
    ulpExponent 24 (-149) q = max (floorLog2 q - 23) (-149) := by
  simp only [ulpExponent]
  norm_num

theorem roundF32_eq (q : ℚ) :
    roundF32 q = (roundNearestEven (q / (2 : ℚ) ^ max (floorLog2 q - 23) (-149)) : ℚ) *
      (2 : ℚ) ^ max (floorLog2 q - 23) (-149) := by
  simp only [roundF32, roundBinary, ulpExponent_binary32]

theorem roundF32_error (q : ℚ) :
    |roundF32 q - q| ≤ (2 : ℚ) ^ max (floorLog2 q - 23) (-149) / 2 := by
  have := roundBinary_error 24 (-149) q
  rwa [ulpExponent_binary32] at this

/-- A positive value in binade `n` rounds with unit `2 ^ (n - 23)`. -/
theorem roundF32_of_binade (q : ℚ) (n : Int) (hn : -126 ≤ n) (h1 : (2 : ℚ) ^ n ≤ q)
    (h2 : q < (2 : ℚ) ^ (n + 1)) :
    roundF32 q = (roundNearestEven (q / (2 : ℚ) ^ (n - 23)) : ℚ) * (2 : ℚ) ^ (n - 23) := by
  have hq : 0 < q := lt_of_lt_of_le (by positivity) h1
  have hl : floorLog2 q = n := floorLog2_unique q n (by rwa [abs_of_pos hq]) (by rwa [abs_of_pos hq])
  rw [roundF32_eq, hl, max_eq_left (by omega)]

theorem two_zpow_split (n : Int) : (2 : ℚ) ^ n = 8388608 * (2 : ℚ) ^ (n - 23) := by
  rw [zpow_sub₀ two_ne_zero]
  norm_num
  ring

theorem two_zpow_succ_split (n : Int) : (2 : ℚ) ^ (n + 1) = 16777216 * (2 : ℚ) ^ (n - 23) := by
  rw [zpow_add_one₀ two_ne_zero, two_zpow_split n]
  ring

/-- An integer multiple `m * 2 ^ e` with `2 ^ 23 ≤ m ≤ 2 ^ 24` is a binary32
value. -/
theorem roundF32_int_mul (m e : Int) (he : -149 ≤ e) (h1 : 8388608 ≤ m) (h2 : m ≤ 16777216) :
    roundF32 ((m : ℚ) * (2 : ℚ) ^ e) = (m : ℚ) * (2 : ℚ) ^ e := by
  have hp : (0 : ℚ) < (2 : ℚ) ^ e := by positivity
  have h1' : (8388608 : ℚ) ≤ m := by exact_mod_cast h1
  have h2' : (m : ℚ) ≤ 16777216 := by exact_mod_cast h2
  rcases lt_or_eq_of_le h2 with hlt | heq
  · have hlt' : (m : ℚ) < 16777216 := by exact_mod_cast hlt
    rw [roundF32_of_binade _ (e + 23) (by omega)]
    · rw [add_sub_cancel_right, mul_div_assoc, div_self hp.ne', mul_one,
        roundNearestEven_near (m : ℚ) m (by simp)]
    · rw [two_zpow_split, add_sub_cancel_right]
      exact mul_le_mul_of_nonneg_right h1' hp.le
    · rw [two_zpow_succ_split, add_sub_cancel_right]
      exact mul_lt_mul_of_pos_right hlt' hp
  · subst heq
    have hp' : (0 : ℚ) < (2 : ℚ) ^ (e + 1) := by positivity
    have es : (2 : ℚ) ^ (e + 1) = 2 * (2 : ℚ) ^ e := by
      rw [zpow_add_one₀ two_ne_zero]; ring
    rw [roundF32_of_binade _ (e + 24) (by omega)]
    · have e24 : e + 24 - 23 = e + 1 := by ring
      rw [e24, es]
      have : ((16777216 : Int) : ℚ) * (2 : ℚ) ^ e / (2 * (2 : ℚ) ^ e) = ((8388608 : Int) : ℚ) := by
        field_simp
        ring
      rw [this, roundNearestEven_near _ 8388608 (by simp)]
      push_cast
      ring
    · rw [two_zpow_split]
      have e24 : e + 24 - 23 = e + 1 := by ring
      rw [e24, es]
      push_cast
      linarith
    · rw [two_zpow_succ_split]
      have e24 : e + 24 - 23 = e + 1 := by ring
      rw [e24, es]
      push_cast
      linarith

/-- Rounding a value of the normal range gives an integer multiple
`m * 2 ^ e` with `2 ^ 23 ≤ m ≤ 2 ^ 24`. -/
theorem roundF32_decomp (q : ℚ) (hq : (2 : ℚ) ^ (-126 : Int) ≤ q) :
    ∃ m : Int, 8388608 ≤ m ∧ m ≤ 16777216 ∧ -149 ≤ floorLog2 q - 23 ∧
      roundF32 q = (m : ℚ) * (2 : ℚ) ^ (floorLog2 q - 23) := by
  have hpos : 0 < q := lt_of_lt_of_le (by positivity) hq
  obtain ⟨s1, s2⟩ := floorLog2_spec q hpos.ne'
  rw [abs_of_pos hpos] at s1 s2
  have hn : -126 ≤ floorLog2 q := by
    have := lt_of_le_of_lt hq s2
    have := (zpow_lt_zpow_iff_right₀ (by norm_num : (1 : ℚ) < 2)).1 this
    omega
  have hp : (0 : ℚ) < (2 : ℚ) ^ (floorLog2 q - 23) := by positivity
  have herr := roundNearestEven_error (q / (2 : ℚ) ^ (floorLog2 q - 23))
  rw [abs_le] at herr
  have b1 : (8388608 : ℚ) ≤ q / (2 : ℚ) ^ (floorLog2 q - 23) := by
    rw [le_div_iff₀ hp, ← two_zpow_split]
    exact s1
  have b2 : q / (2 : ℚ) ^ (floorLog2 q - 23) < 16777216 := by
    rw [div_lt_iff₀ hp, ← two_zpow_succ_split]
    exact s2
  refine ⟨roundNearestEven (q / (2 : ℚ) ^ (floorLog2 q - 23)), ?_, ?_, by omega,
    roundF32_of_binade q _ hn s1 s2⟩
  · have : (8388608 : ℚ) - 1 < (roundNearestEven (q / (2 : ℚ) ^ (floorLog2 q - 23)) : ℚ) := by
      linarith [herr.1]
    have : (8388608 : Int) - 1 < roundNearestEven (q / (2 : ℚ) ^ (floorLog2 q - 23)) := by
      exact_mod_cast this
    omega
  · have : (roundNearestEven (q / (2 : ℚ) ^ (floorLog2 q - 23)) : ℚ) < 16777216 + 1 := by
      linarith [herr.2]
    have : roundNearestEven (q / (2 : ℚ) ^ (floorLog2 q - 23)) < (16777216 : Int) + 1 := by
      exact_mod_cast this
    omega

theorem roundF32_idempotent (q : ℚ) (hq : (2 : ℚ) ^ (-126 : Int) ≤ q) :
    roundF32 (roundF32 q) = roundF32 q := by
  obtain ⟨m, h1, h2, he, hm⟩ := roundF32_decomp q hq
  rw [hm]
  exact roundF32_int_mul m _ he h1 h2

theorem roundF32_clock_increment : roundF32 0.016 = 8589935 / 536870912 := by decide!

/-- A binary32 value below `2 ^ 19` is at most `2 ^ 19 - 2 ^ (-5)`. -/
theorem le_pred_of_lt_524288 (x : ℚ) (hx : roundF32 x = x) (hlt : x < 524288) :
    x ≤ 524288 - 1 / 32 := by
  by_cases h18 : x < 262144
  · linarith
  · push_neg at h18
    have hb := roundF32_of_binade x 18 (by norm_num) (by norm_num; linarith) (by norm_num; linarith)
    rw [hx] at hb
    norm_num at hb
    generalize roundNearestEven (x / (1 / 32)) = k at hb
    have hk : (k : ℚ) < 16777216 := by linarith
    have hk' : k < 16777216 := by exact_mod_cast hk
    have hk'' : (k : ℚ) ≤ 16777216 - 1 := by
      have : k ≤ 16777216 - 1 := by omega
      exact_mod_cast this
    linarith

/-- Below `2 ^ 19` a frame makes the clock strictly greater. -/
theorem lt_roundF32_add (x : ℚ) (hx : roundF32 x = x) (h0 : 0 ≤ x) (hlt : x < 524288) :
    x < roundF32 (x + 8589935 / 536870912) := by
  have hle := le_pred_of_lt_524288 x hx hlt
  have hy0 : (0 : ℚ) < x + 8589935 / 536870912 := by linarith
  have hy : x + 8589935 / 536870912 < 524288 := by linarith
  obtain ⟨s1, -⟩ := floorLog2_spec (x + 8589935 / 536870912) hy0.ne'
  rw [abs_of_pos hy0] at s1
  have hfl : floorLog2 (x + 8589935 / 536870912) < 19 := by
    have : (2 : ℚ) ^ floorLog2 (x + 8589935 / 536870912) < (2 : ℚ) ^ (19 : Int) := by
      norm_num
      linarith
    exact (zpow_lt_zpow_iff_right₀ (by norm_num : (1 : ℚ) < 2)).1 this
  have he : max (floorLog2 (x + 8589935 / 536870912) - 23) (-149) ≤ -5 := by
    apply max_le <;> omega
  have hpow : (2 : ℚ) ^ max (floorLog2 (x + 8589935 / 536870912) - 23) (-149) ≤ 1 / 32 := by
    have := zpow_le_zpow_right₀ (by norm_num : (1 : ℚ) ≤ 2) he
    norm_num at this ⊢
    exact this
  have herr := roundF32_error (x + 8589935 / 536870912)
  rw [abs_le] at herr
  linarith [herr.1]

/-- From `2 ^ 19` on a frame leaves the clock where it is. -/
theorem roundF32_add_eq (x : ℚ) (hx : roundF32 x = x) (hge : 524288 ≤ x) :
    roundF32 (x + 8589935 / 536870912) = x := by
  have hpos : 0 < x := by linarith
  obtain ⟨m, h1, h2, he, hm⟩ := roundF32_decomp x (by norm_num; linarith)
  rw [hx] at hm
  obtain ⟨s1, s2⟩ := floorLog2_spec x hpos.ne'
  rw [abs_of_pos hpos] at s1 s2
  obtain ⟨n, hndef⟩ : ∃ n, n = floorLog2 x := ⟨_, rfl⟩
  rw [← hndef] at hm s1 s2 he
  clear hndef
  have hn : 19 ≤ n := by
    have : (2 : ℚ) ^ (19 : Int) < (2 : ℚ) ^ (n + 1) := by
      norm_num
      linarith
    have := (zpow_lt_zpow_iff_right₀ (by norm_num : (1 : ℚ) < 2)).1 this
    omega
  have hp : (0 : ℚ) < (2 : ℚ) ^ (n - 23) := by positivity
  have hpe : (1 : ℚ) / 16 ≤ (2 : ℚ) ^ (n - 23) := by
    have := zpow_le_zpow_right₀ (by norm_num : (1 : ℚ) ≤ 2) (show (-4 : Int) ≤ n - 23 by omega)
    norm_num at this ⊢
    exact this
  have hmlt : m < 16777216 := by
    have : (m : ℚ) * (2 : ℚ) ^ (n - 23) < 16777216 * (2 : ℚ) ^ (n - 23) := by
      rw [← hm, ← two_zpow_succ_split]
      exact s2
    have := lt_of_mul_lt_mul_right this hp.le
    exact_mod_cast this
  have hm1 : (m : ℚ) + 1 ≤ 16777216 := by
    have : m + 1 ≤ 16777216 := by omega
    exact_mod_cast this
  have hfrac : (8589935 / 536870912 : ℚ) / (2 : ℚ) ^ (n - 23) < 1 / 2 := by
    rw [div_lt_iff₀ hp]
    linarith
  have hfrac0 : (0 : ℚ) < (8589935 / 536870912 : ℚ) / (2 : ℚ) ^ (n - 23) := by positivity
  have hy2 : x + 8589935 / 536870912 < (2 : ℚ) ^ (n + 1) := by
    rw [two_zpow_succ_split, hm]
    have : (8589935 / 536870912 : ℚ) < (2 : ℚ) ^ (n - 23) := by linarith
    nlinarith
  rw [roundF32_of_binade _ n (by omega) (by linarith) hy2]
  have hdiv : (x + 8589935 / 536870912) / (2 : ℚ) ^ (n - 23) =
      (m : ℚ) + (8589935 / 536870912 : ℚ) / (2 : ℚ) ^ (n - 23) := by
    rw [add_div]
    congr 1
    rw [hm]
    field_simp
  rw [hdiv, roundNearestEven_near _ m (by
    rw [add_sub_cancel_left, abs_of_pos hfrac0]
    exact hfrac)]
  exact hm.symm

/-! ## The picker in binary32 -/

theorem hitTest_binary32_iff (x y : ℚ) (i j : Int) :
    hitTest x y i j = true ↔
      (roundF32 (sphereX i - roundF32 0.1) ≤ x ∧ x ≤ roundF32 (sphereX i + roundF32 0.1)) ∧
        (roundF32 (sphereY j - roundF32 0.1) ≤ y ∧ y ≤ roundF32 (sphereY j + roundF32 0.1)) := by
  simp [hitTest, and_assoc]

theorem scanRow_binary32_eq_none (x y : ℚ) (i : Int) (js : List Int) :
    scanRow x y i js = none ↔ ∀ j ∈ js, hitTest x y i j = false := by
  induction js with
  | nil => simp [scanRow]
  | cons j js ih =>
    by_cases h : hitTest x y i j = true
    · simp [scanRow, h]
    · simp [scanRow, h, ih]

theorem scanGrid_binary32_eq_none (x y : ℚ) (is : List Int) :
    (∀ i ∈ is, ∀ j ∈ gridIndices, hitTest x y i j = false) → scanGrid x y is = none := by
  induction is with
  | nil => simp [scanGrid]
  | cons i is ih =>
    intro h
    have hr : scanRow x y i gridIndices = none :=
      (scanRow_binary32_eq_none x y i gridIndices).2 (h i (by simp))
    simp only [scanGrid, hr]
    exact ih fun i' hi' => h i' (by simp [hi'])

/-- The error of one rounding, relative to the rounded argument. -/
theorem roundBinary_rel_error (prec : Nat) (emin : Int) (q : ℚ) :
    |roundBinary prec emin q - q| ≤ |q| / (2 : ℚ) ^ prec + (2 : ℚ) ^ emin / 2 := by
  by_cases hq : q = 0
  · subst hq
    have : roundBinary prec emin 0 = 0 := by simp [roundBinary, roundNearestEven]
    rw [this]
    simp only [sub_zero, abs_zero, zero_div, zero_add]
    positivity
  · obtain ⟨s1, -⟩ := floorLog2_spec q hq
    have herr := roundBinary_error prec emin q
    have hsplit : (2 : ℚ) ^ (floorLog2 q - ((prec : Int) - 1)) =
        (2 : ℚ) ^ floorLog2 q * 2 / (2 : ℚ) ^ prec := by
      rw [zpow_sub₀ two_ne_zero, zpow_sub₀ two_ne_zero, zpow_natCast]
      field_simp
    have hpp : (0 : ℚ) < (2 : ℚ) ^ prec := by positivity
    have hpe : (0 : ℚ) < (2 : ℚ) ^ emin := by positivity
    have hq2 : (2 : ℚ) ^ floorLog2 q / (2 : ℚ) ^ prec ≤ |q| / (2 : ℚ) ^ prec :=
      div_le_div_of_nonneg_right s1 hpp.le
    have hpn : (0 : ℚ) < (2 : ℚ) ^ floorLog2 q / (2 : ℚ) ^ prec := by positivity
    refine herr.trans ?_
    unfold ulpExponent
    rcases max_cases (floorLog2 q - ((prec : Int) - 1)) emin with ⟨h, -⟩ | ⟨h, -⟩
    · rw [h, hsplit]
      have : (2 : ℚ) ^ floorLog2 q * 2 / (2 : ℚ) ^ prec / 2 =
          (2 : ℚ) ^ floorLog2 q / (2 : ℚ) ^ prec := by
        field_simp
        ring
      rw [this]
      linarith
    · rw [h]
      have : (0 : ℚ) ≤ |q| / (2 : ℚ) ^ prec := by positivity
      linarith

theorem roundF32_rel_error (q : ℚ) :
    |roundF32 q - q| ≤ |q| / 16777216 + 1 / 10 ^ 40 := by
  have h := roundBinary_rel_error 24 (-149) q
  have e : (2 : ℚ) ^ (-149 : Int) / 2 ≤ 1 / 10 ^ 40 := by norm_num
  have p : (2 : ℚ) ^ (24 : Nat) = 16777216 := by norm_num
  rw [p] at h
  exact h.trans (by linarith)

theorem roundF64_rel_error (q : ℚ) :
    |roundF64 q - q| ≤ |q| / 9007199254740992 + 1 / 10 ^ 40 := by
  have h := roundBinary_rel_error 53 (-1074) q
  have e : (2 : ℚ) ^ (-1074 : Int) / 2 ≤ 1 / 10 ^ 40 := by
    have h1 : (2 : ℚ) ^ (-1074 : Int) ≤ (2 : ℚ) ^ (-149 : Int) :=
      zpow_le_zpow_right₀ (by norm_num) (by norm_num)
    have h2 : (2 : ℚ) ^ (-149 : Int) / 2 ≤ 1 / 10 ^ 40 := by norm_num
    linarith
  have p : (2 : ℚ) ^ (53 : Nat) = 9007199254740992 := by norm_num
  rw [p] at h
  exact h.trans (by linarith)

/-- From a bound on a rounded value to a bound on the rounding error and on
the argument. -/
theorem error_of_bound (r q ε τ B η : ℚ) (hε0 : 0 ≤ ε) (hε : ε ≤ 1 / 2)
    (h : |r - q| ≤ ε * |q| + τ) (hr : |r| ≤ B) (hη : 2 * ε * (B + τ) + τ ≤ η) :
    |r - q| ≤ η ∧ |q| ≤ B + η := by
  have h1 : |q| ≤ |r| + |r - q| := by
    have := abs_sub_abs_le_abs_sub q r
    rw [abs_sub_comm q r] at this
    linarith
  have h2 : ε * |q| ≤ 1 / 2 * |q| := mul_le_mul_of_nonneg_right hε (abs_nonneg q)
  have h3 : |q| ≤ 2 * (B + τ) := by linarith
  have h4 : ε * |q| ≤ ε * (2 * (B + τ)) := mul_le_mul_of_nonneg_left h3 hε0
  have h5 : |r - q| ≤ η := by linarith
  exact ⟨h5, by linarith⟩

theorem error_of_bound_binary32 (q B η : ℚ) (hr : |roundF32 q| ≤ B)
    (hη : 2 * (1 / 16777216) * (B + 1 / 10 ^ 40) + 1 / 10 ^ 40 ≤ η) :
    |roundF32 q - q| ≤ η ∧ |q| ≤ B + η :=
  error_of_bound (roundF32 q) q (1 / 16777216) (1 / 10 ^ 40) B η (by norm_num) (by norm_num)
    (by have := roundF32_rel_error q; linarith) hr hη

theorem error_of_bound_binary64 (q B η : ℚ) (hr : |roundF64 q| ≤ B)
    (hη : 2 * (1 / 9007199254740992) * (B + 1 / 10 ^ 40) + 1 / 10 ^ 40 ≤ η) :
    |roundF64 q - q| ≤ η ∧ |q| ≤ B + η :=
  error_of_bound (roundF64 q) q (1 / 9007199254740992) (1 / 10 ^ 40) B η (by norm_num)
    (by norm_num) (by have := roundF64_rel_error q; linarith) hr hη

/-- A normalised x of size at most `1.31` is within `5e-7` of the exact
`xpos / 800 * 2 - 1`. -/
theorem normX_error (xpos : ℚ) (hB : |normX xpos| ≤ 131 / 100) :
    |normX xpos - (xpos / 800 * 2 - 1)| ≤ 5 / 10000000 := by
  unfold normX at hB ⊢
  obtain ⟨e4, b4⟩ := error_of_bound_binary32 _ (131 / 100) (157 / 10 ^ 9) hB (by norm_num)
  obtain ⟨e3, b3⟩ := error_of_bound_binary64 _ (132 / 100) (1 / 10 ^ 15)
    (b4.trans (by norm_num)) (by norm_num)
  rw [abs_le] at e4 e3 b3
  have c2 : |roundF64 (roundF64 (roundF32 xpos / 800) * 2)| ≤ 233 / 100 := by
    rw [abs_le]
    constructor <;> linarith [b3.1, b3.2]
  obtain ⟨e2, b2⟩ := error_of_bound_binary64 _ (233 / 100) (1 / 10 ^ 15) c2 (by norm_num)
  rw [abs_le] at e2 b2
  have c1 : |roundF64 (roundF32 xpos / 800)| ≤ 117 / 100 := by
    rw [abs_le]
    constructor <;> linarith [b2.1, b2.2]
  obtain ⟨e1, b1⟩ := error_of_bound_binary64 _ (117 / 100) (1 / 10 ^ 15) c1 (by norm_num)
  rw [abs_le] at e1 b1
  have c0 : |roundF32 xpos| ≤ 944 := by
    rw [abs_le]
    constructor <;> linarith [b1.1, b1.2]
  obtain ⟨e0, -⟩ := error_of_bound_binary32 _ 944 (113 / 10 ^ 6) c0 (by norm_num)
  rw [abs_le] at e0 ⊢
  constructor <;> linarith [e0.1, e0.2, e1.1, e1.2, e2.1, e2.2, e3.1, e3.2, e4.1, e4.2]

/-- A normalised y of size at most `1.31` is within `5e-7` of the exact
`1 - ypos / 800 * 2`. -/
theorem normY_error (ypos : ℚ) (hB : |normY ypos| ≤ 131 / 100) :
    |normY ypos - (1 - ypos / 800 * 2)| ≤ 5 / 10000000 := by
  unfold normY at hB ⊢
  obtain ⟨e4, b4⟩ := error_of_bound_binary32 _ (131 / 100) (157 / 10 ^ 9) hB (by norm_num)
  obtain ⟨e3, b3⟩ := error_of_bound_binary64 _ (132 / 100) (1 / 10 ^ 15)
    (b4.trans (by norm_num)) (by norm_num)
  rw [abs_le] at e4 e3 b3
  have c2 : |roundF64 (roundF64 (roundF32 ypos / 800) * 2)| ≤ 233 / 100 := by
    rw [abs_le]
    constructor <;> linarith [b3.1, b3.2]
  obtain ⟨e2, b2⟩ := error_of_bound_binary64 _ (233 / 100) (1 / 10 ^ 15) c2 (by norm_num)
  rw [abs_le] at e2 b2
  have c1 : |roundF64 (roundF32 ypos / 800)| ≤ 117 / 100 := by
    rw [abs_le]
    constructor <;> linarith [b2.1, b2.2]
  obtain ⟨e1, b1⟩ := error_of_bound_binary64 _ (117 / 100) (1 / 10 ^ 15) c1 (by norm_num)
  rw [abs_le] at e1 b1
  have c0 : |roundF32 ypos| ≤ 944 := by
    rw [abs_le]
    constructor <;> linarith [b1.1, b1.2]
  obtain ⟨e0, -⟩ := error_of_bound_binary32 _ 944 (113 / 10 ^ 6) c0 (by norm_num)
  rw [abs_le] at e0 ⊢
  constructor <;> linarith [e0.1, e0.2, e1.1, e1.2, e2.1, e2.2, e3.1, e3.2, e4.1, e4.2]

/-- The binary32 edges of column (or row) `i` lie within `1e-7` of the exact
edges, and inside `[-1.31, 1.31]`. -/
theorem edges_near (i : Int) (hi : 0 ≤ i ∧ i < 6) :
    (((i : ℚ) - 2) * 0.4 - 0.1 - 1 / 10000000 ≤ roundF32 (sphereX i - roundF32 0.1) ∧
        roundF32 (sphereX i + roundF32 0.1) ≤ ((i : ℚ) - 2) * 0.4 + 0.1 + 1 / 10000000) ∧
      (-(131 / 100) ≤ roundF32 (sphereX i - roundF32 0.1) ∧
        roundF32 (sphereX i + roundF32 0.1) ≤ 131 / 100) := by
  obtain ⟨hi0, hi6⟩ := hi
  interval_cases i <;> decide!

theorem sphereY_eq_sphereX (j : Int) : sphereY j = sphereX j := rfl

/-- A point that passes the binary32 hit test of cell `(i, j)` has its exact
normalised point within `1e-6` of the exact box of that cell. -/
theorem near_box_of_hit (xpos ypos : ℚ) (i j : Int) (hi : 0 ≤ i ∧ i < 6) (hj : 0 ≤ j ∧ j < 6)
    (h : hitTest (normX xpos) (normY ypos) i j = true) :
    (((i : ℚ) - 2) * 0.4 - 0.1 - 1 / 1000000 ≤ xpos / 800 * 2 - 1 ∧
        xpos / 800 * 2 - 1 ≤ ((i : ℚ) - 2) * 0.4 + 0.1 + 1 / 1000000) ∧
      (((j : ℚ) - 2) * 0.4 - 0.1 - 1 / 1000000 ≤ 1 - ypos / 800 * 2 ∧
        1 - ypos / 800 * 2 ≤ ((j : ℚ) - 2) * 0.4 + 0.1 + 1 / 1000000) := by
  rw [hitTest_binary32_iff, sphereY_eq_sphereX] at h
  obtain ⟨⟨hx1, hx2⟩, hy1, hy2⟩ := h
  obtain ⟨⟨ex1, ex2⟩, bx1, bx2⟩ := edges_near i hi
  obtain ⟨⟨ey1, ey2⟩, by1, by2⟩ := edges_near j hj
  have eX := normX_error xpos (abs_le.2 ⟨by linarith, by linarith⟩)
  have eY := normY_error ypos (abs_le.2 ⟨by linarith, by linarith⟩)
  rw [abs_le] at eX eY
  refine ⟨⟨?_, ?_⟩, ?_, ?_⟩ <;> linarith [eX.1, eX.2, eY.1, eY.2]

theorem callback_binary32_of_no_hit (st : State) (mods : Int) (xpos ypos : ℚ)
    (h : ∀ i ∈ gridIndices, ∀ j ∈ gridIndices, hitTest (normX xpos) (normY ypos) i j = false) :
    (mouse_button_callback st GLFW_MOUSE_BUTTON_LEFT GLFW_PRESS mods xpos ypos).selection =
      (false, -1) := by
  have hn := scanGrid_binary32_eq_none (normX xpos) (normY ypos) gridIndices h
  simp [mouse_button_callback, hn, State.selection]

/-! ## The clock in binary32 -/

theorem tick_elapsedTime (st : State) :
    (tick st).elapsedTime = roundF32 (st.elapsedTime + 8589935 / 536870912) := by
  simp only [tick, roundF32_clock_increment]

/-- One frame from a clock value `k * 2 ^ e` of a binade in which the
increment is `r` units, with `D` the integer nearest to `r`. -/
theorem tick_in_binade (b : Bool) (i : Int) (e k D : Int) (r : ℚ) (he : -149 ≤ e)
    (hc : (8589935 / 536870912 : ℚ) = r * (2 : ℚ) ^ e) (hk : 8388608 ≤ k) (hr : 0 ≤ r)
    (hD : |r - D| < 1 / 2) (hend : (k : ℚ) + r < 16777216) :
    tick ⟨b, i, (k : ℚ) * (2 : ℚ) ^ e⟩ = ⟨b, i, ((k + D : Int) : ℚ) * (2 : ℚ) ^ e⟩ := by
  have hp : (0 : ℚ) < (2 : ℚ) ^ e := by positivity
  have hk' : (8388608 : ℚ) ≤ k := by exact_mod_cast hk
  have hy : (k : ℚ) * (2 : ℚ) ^ e + 8589935 / 536870912 = ((k : ℚ) + r) * (2 : ℚ) ^ e := by
    rw [hc]
    ring
  have hval : roundF32 ((k : ℚ) * (2 : ℚ) ^ e + 8589935 / 536870912) =
      ((k + D : Int) : ℚ) * (2 : ℚ) ^ e := by
    rw [hy, roundF32_of_binade _ (e + 23) (by omega)]
    · rw [add_sub_cancel_right, mul_div_assoc, div_self hp.ne', mul_one,
        roundNearestEven_near ((k : ℚ) + r) (k + D) (by
          push_cast
          rwa [add_sub_add_left_eq_sub])]
    · rw [two_zpow_split, add_sub_cancel_right]
      exact mul_le_mul_of_nonneg_right (by linarith) hp.le
    · rw [two_zpow_succ_split, add_sub_cancel_right]
      exact mul_lt_mul_of_pos_right hend hp
  simp only [tick, roundF32_clock_increment, hval]

/-- The frames that stay inside one binade add `D` units each. -/
theorem iterate_tick_in_binade (e k D : Int) (r : ℚ) (he : -149 ≤ e)
    (hc : (8589935 / 536870912 : ℚ) = r * (2 : ℚ) ^ e) (hk : 8388608 ≤ k) (hr : 0 ≤ r)
    (hD : |r - D| < 1 / 2) (hD0 : 0 ≤ D) (j : Nat)
    (hend : (k : ℚ) + ((j : ℚ) - 1) * D + r < 16777216) :
    tick^[j] ⟨false, -1, (k : ℚ) * (2 : ℚ) ^ e⟩ =
      ⟨false, -1, ((k + j * D : Int) : ℚ) * (2 : ℚ) ^ e⟩ := by
  have hD0' : (0 : ℚ) ≤ D := by exact_mod_cast hD0
  induction j with
  | zero => simp
  | succ j ih =>
    have hj : (0 : ℚ) ≤ j := by positivity
    push_cast at hend
    rw [Function.iterate_succ_apply', ih (by nlinarith),
      tick_in_binade false (-1) e (k + j * D) D r he hc (by nlinarith) hr hD (by
        push_cast
        linarith)]
    congr 2
    push_cast
    ring

/-- After 25150895 frames from the initial state the clock is `524288`. -/
theorem clock_reaches_524288 :
    tick^[25150895] State.initial = ⟨false, -1, 524288⟩ := by
  have h0 : tick^[0] State.initial = ⟨false, -1, 0⟩ := rfl
  have h1 : tick^[1] State.initial = ⟨false, -1, 8589935 / 536870912⟩ := by
    have h := Function.iterate_succ_apply' tick 0 State.initial
    rw [h0] at h
    exact h.trans (by decide!)
  have h2 : tick^[2] State.initial = ⟨false, -1, 8589935 / 268435456⟩ := by
    have h := Function.iterate_succ_apply' tick 1 State.initial
    rw [h1] at h
    exact h.trans (by decide!)
  have h3 : tick^[3] State.initial = ⟨false, -1, 6442451 / 134217728⟩ := by
    have h := Function.iterate_succ_apply' tick 2 State.initial
    rw [h2] at h
    exact h.trans (by decide!)
  have h4 : tick^[4] State.initial = ⟨false, -1, 8589935 / 134217728⟩ := by
    have h := Function.iterate_succ_apply' tick 3 State.initial
    rw [h3] at h
    exact h.trans (by decide!)
  have h7 : tick^[7] State.initial = ⟨false, -1, 15032387 / 134217728⟩ := by
    have h := Function.iterate_add_apply tick 3 4 State.initial
    rw [h4, show (8589935 / 134217728 : ℚ) = (((8589935 : Int) : ℚ)) * (2 : ℚ) ^ (-27 : Int) by norm_num,
      iterate_tick_in_binade (-27) 8589935 2147484 (8589935 / 4) (by norm_num) (by norm_num) (by norm_num)
        (by norm_num) (by norm_num [abs_lt]) (by norm_num) 3 (by norm_num)] at h
    rw [h]
    norm_num
  have h8 : tick^[8] State.initial = ⟨false, -1, 8589935 / 67108864⟩ := by
    have h := Function.iterate_succ_apply' tick 7 State.initial
    rw [h7] at h
    exact h.trans (by decide!)
  have h15 : tick^[15] State.initial = ⟨false, -1, 16106129 / 67108864⟩ := by
    have h := Function.iterate_add_apply tick 7 8 State.initial
    rw [h8, show (8589935 / 67108864 : ℚ) = (((8589935 : Int) : ℚ)) * (2 : ℚ) ^ (-26 : Int) by norm_num,
      iterate_tick_in_binade (-26) 8589935 1073742 (8589935 / 8) (by norm_num) (by norm_num) (by norm_num)
        (by norm_num) (by norm_num [abs_lt]) (by norm_num) 7 (by norm_num)] at h
    rw [h]
    norm_num
  have h16 : tick^[16] State.initial = ⟨false, -1, 8589935 / 33554432⟩ := by
    have h := Function.iterate_succ_apply' tick 15 State.initial
    rw [h15] at h
    exact h.trans (by decide!)
  have h31 : tick^[31] State.initial = ⟨false, -1, 2080375 / 4194304⟩ := by
    have h := Function.iterate_add_apply tick 15 16 State.initial
    rw [h16, show (8589935 / 33554432 : ℚ) = (((8589935 : Int) : ℚ)) * (2 : ℚ) ^ (-25 : Int) by norm_num,
      iterate_tick_in_binade (-25) 8589935 536871 (8589935 / 16) (by norm_num) (by norm_num) (by norm_num)
        (by norm_num) (by norm_num [abs_lt]) (by norm_num) 15 (by norm_num)] at h
    rw [h]
    norm_num
  have h32 : tick^[32] State.initial = ⟨false, -1, 8589935 / 16777216⟩ := by
    have h := Function.iterate_succ_apply' tick 31 State.initial
    rw [h31] at h
    exact h.trans (by decide!)
  have h62 : tick^[62] State.initial = ⟨false, -1, 16642985 / 16777216⟩ := by
    have h := Function.iterate_add_apply tick 30 32 State.initial
    rw [h32, show (8589935 / 16777216 : ℚ) = (((8589935 : Int) : ℚ)) * (2 : ℚ) ^ (-24 : Int) by norm_num,
      iterate_tick_in_binade (-24) 8589935 268435 (8589935 / 32) (by norm_num) (by norm_num) (by norm_num)
        (by norm_num) (by norm_num [abs_lt]) (by norm_num) 30 (by norm_num)] at h
    rw [h]
    norm_num
  have h63 : tick^[63] State.initial = ⟨false, -1, 4227855 / 4194304⟩ := by
    have h := Function.iterate_succ_apply' tick 62 State.initial
    rw [h62] at h
    exact h.trans (by decide!)
  have h124 : tick^[124] State.initial = ⟨false, -1, 260047 / 131072⟩ := by
    have h := Function.iterate_add_apply tick 61 63 State.initial
    rw [h63, show (4227855 / 4194304 : ℚ) = (((8455710 : Int) : ℚ)) * (2 : ℚ) ^ (-23 : Int) by norm_num,
      iterate_tick_in_binade (-23) 8455710 134218 (8589935 / 64) (by norm_num) (by norm_num) (by norm_num)
        (by norm_num) (by norm_num [abs_lt]) (by norm_num) 61 (by norm_num)] at h
    rw [h]
    norm_num
  have h125 : tick^[125] State.initial = ⟨false, -1, 8388613 / 4194304⟩ := by
    have h := Function.iterate_succ_apply' tick 124 State.initial
    rw [h124] at h
    exact h.trans (by decide!)
  have h249 : tick^[249] State.initial = ⟨false, -1, 16710129 / 4194304⟩ := by
    have h := Function.iterate_add_apply tick 124 125 State.initial
    rw [h125, show (8388613 / 4194304 : ℚ) = (((8388613 : Int) : ℚ)) * (2 : ℚ) ^ (-22 : Int) by norm_num,
      iterate_tick_in_binade (-22) 8388613 67109 (8589935 / 128) (by norm_num) (by norm_num) (by norm_num)
        (by norm_num) (by norm_num [abs_lt]) (by norm_num) 124 (by norm_num)] at h
    rw [h]
    norm_num
  have h250 : tick^[250] State.initial = ⟨false, -1, 8388619 / 2097152⟩ := by
    have h := Function.iterate_succ_apply' tick 249 State.initial
    rw [h249] at h
    exact h.trans (by decide!)
  have h500 : tick^[500] State.initial = ⟨false, -1, 16777119 / 2097152⟩ := by
    have h := Function.iterate_add_apply tick 250 250 State.initial
    rw [h250, show (8388619 / 2097152 : ℚ) = (((8388619 : Int) : ℚ)) * (2 : ℚ) ^ (-21 : Int) by norm_num,
      iterate_tick_in_binade (-21) 8388619 33554 (8589935 / 256) (by norm_num) (by norm_num) (by norm_num)
        (by norm_num) (by norm_num [abs_lt]) (by norm_num) 250 (by norm_num)] at h
    rw [h]
    norm_num
  have h501 : tick^[501] State.initial = ⟨false, -1, 8405337 / 1048576⟩ := by
    have h := Function.iterate_succ_apply' tick 500 State.initial
    rw [h500] at h
    exact h.trans (by decide!)
  have h1000 : tick^[1000] State.initial = ⟨false, -1, 4194265 / 262144⟩ := by
    have h := Function.iterate_add_apply tick 499 501 State.initial
    rw [h501, show (8405337 / 1048576 : ℚ) = (((8405337 : Int) : ℚ)) * (2 : ℚ) ^ (-20 : Int) by norm_num,
      iterate_tick_in_binade (-20) 8405337 16777 (8589935 / 512) (by norm_num) (by norm_num) (by norm_num)
        (by norm_num) (by norm_num [abs_lt]) (by norm_num) 499 (by norm_num)] at h
    rw [h]
    norm_num
  have h1001 : tick^[1001] State.initial = ⟨false, -1, 8396919 / 524288⟩ := by
    have h := Function.iterate_succ_apply' tick 1000 State.initial
    rw [h1000] at h
    exact h.trans (by decide!)
  have h1999 : tick^[1999] State.initial = ⟨false, -1, 16769141 / 524288⟩ := by
    have h := Function.iterate_add_apply tick 998 1001 State.initial
    rw [h1001, show (8396919 / 524288 : ℚ) = (((8396919 : Int) : ℚ)) * (2 : ℚ) ^ (-19 : Int) by norm_num,
      iterate_tick_in_binade (-19) 8396919 8389 (8589935 / 1024) (by norm_num) (by norm_num) (by norm_num)
        (by norm_num) (by norm_num [abs_lt]) (by norm_num) 998 (by norm_num)] at h
    rw [h]
    norm_num
  have h2000 : tick^[2000] State.initial = ⟨false, -1, 8388765 / 262144⟩ := by
    have h := Function.iterate_succ_apply' tick 1999 State.initial
    rw [h1999] at h
    exact h.trans (by decide!)
  have h4000 : tick^[4000] State.initial = ⟨false, -1, 16776765 / 262144⟩ := by
    have h := Function.iterate_add_apply tick 2000 2000 State.initial
    rw [h2000, show (8388765 / 262144 : ℚ) = (((8388765 : Int) : ℚ)) * (2 : ℚ) ^ (-18 : Int) by norm_num,
      iterate_tick_in_binade (-18) 8388765 4194 (8589935 / 2048) (by norm_num) (by norm_num) (by norm_num)
        (by norm_num) (by norm_num [abs_lt]) (by norm_num) 2000 (by norm_num)] at h
    rw [h]
    norm_num
  have h4001 : tick^[4001] State.initial = ⟨false, -1, 524405 / 8192⟩ := by
    have h := Function.iterate_succ_apply' tick 4000 State.initial
    rw [h4000] at h
    exact h.trans (by decide!)
  have h8000 : tick^[8000] State.initial = ⟨false, -1, 16776383 / 131072⟩ := by
    have h := Function.iterate_add_apply tick 3999 4001 State.initial
    rw [h4001, show (524405 / 8192 : ℚ) = (((8390480 : Int) : ℚ)) * (2 : ℚ) ^ (-17 : Int) by norm_num,
      iterate_tick_in_binade (-17) 8390480 2097 (8589935 / 4096) (by norm_num) (by norm_num) (by norm_num)
        (by norm_num) (by norm_num [abs_lt]) (by norm_num) 3999 (by norm_num)] at h
    rw [h]
    norm_num
  have h8001 : tick^[8001] State.initial = ⟨false, -1, 1048655 / 8192⟩ := by
    have h := Function.iterate_succ_apply' tick 8000 State.initial
    rw [h8000] at h
    exact h.trans (by decide!)
  have h15997 : tick^[15997] State.initial = ⟨false, -1, 4194261 / 16384⟩ := by
    have h := Function.iterate_add_apply tick 7996 8001 State.initial
    rw [h8001, show (1048655 / 8192 : ℚ) = (((8389240 : Int) : ℚ)) * (2 : ℚ) ^ (-16 : Int) by norm_num,
      iterate_tick_in_binade (-16) 8389240 1049 (8589935 / 8192) (by norm_num) (by norm_num) (by norm_num)
        (by norm_num) (by norm_num [abs_lt]) (by norm_num) 7996 (by norm_num)] at h
    rw [h]
    norm_num
  have h15998 : tick^[15998] State.initial = ⟨false, -1, 4194523 / 16384⟩ := by
    have h := Function.iterate_succ_apply' tick 15997 State.initial
    rw [h15997] at h
    exact h.trans (by decide!)
  have h32005 : tick^[32005] State.initial = ⟨false, -1, 8388357 / 16384⟩ := by
    have h := Function.iterate_add_apply tick 16007 15998 State.initial
    rw [h15998, show (4194523 / 16384 : ℚ) = (((8389046 : Int) : ℚ)) * (2 : ℚ) ^ (-15 : Int) by norm_num,
      iterate_tick_in_binade (-15) 8389046 524 (8589935 / 16384) (by norm_num) (by norm_num) (by norm_num)
        (by norm_num) (by norm_num [abs_lt]) (by norm_num) 16007 (by norm_num)] at h
    rw [h]
    norm_num
  have h32006 : tick^[32006] State.initial = ⟨false, -1, 8388619 / 16384⟩ := by
    have h := Function.iterate_succ_apply' tick 32005 State.initial
    rw [h32005] at h
    exact h.trans (by decide!)
  have h64023 : tick^[64023] State.initial = ⟨false, -1, 16777073 / 16384⟩ := by
    have h := Function.iterate_add_apply tick 32017 32006 State.initial
    rw [h32006, show (8388619 / 16384 : ℚ) = (((8388619 : Int) : ℚ)) * (2 : ℚ) ^ (-14 : Int) by norm_num,
      iterate_tick_in_binade (-14) 8388619 262 (8589935 / 32768) (by norm_num) (by norm_num) (by norm_num)
        (by norm_num) (by norm_num [abs_lt]) (by norm_num) 32017 (by norm_num)] at h
    rw [h]
    norm_num
  have h64024 : tick^[64024] State.initial = ⟨false, -1, 2097167 / 2048⟩ := by
    have h := Function.iterate_succ_apply' tick 64023 State.initial
    rw [h64023] at h
    exact h.trans (by decide!)
  have h128058 : tick^[128058] State.initial = ⟨false, -1, 8388561 / 4096⟩ := by
    have h := Function.iterate_add_apply tick 64034 64024 State.initial
    rw [h64024, show (2097167 / 2048 : ℚ) = (((8388668 : Int) : ℚ)) * (2 : ℚ) ^ (-13 : Int) by norm_num,
      iterate_tick_in_binade (-13) 8388668 131 (8589935 / 65536) (by norm_num) (by norm_num) (by norm_num)
        (by norm_num) (by norm_num [abs_lt]) (by norm_num) 64034 (by norm_num)] at h
    rw [h]
    norm_num
  have h128059 : tick^[128059] State.initial = ⟨false, -1, 8388627 / 4096⟩ := by
    have h := Function.iterate_succ_apply' tick 128058 State.initial
    rw [h128058] at h
    exact h.trans (by decide!)
  have h255158 : tick^[255158] State.initial = ⟨false, -1, 16777161 / 4096⟩ := by
    have h := Function.iterate_add_apply tick 127099 128059 State.initial
    rw [h128059, show (8388627 / 4096 : ℚ) = (((8388627 : Int) : ℚ)) * (2 : ℚ) ^ (-12 : Int) by norm_num,
      iterate_tick_in_binade (-12) 8388627 66 (8589935 / 131072) (by norm_num) (by norm_num) (by norm_num)
        (by norm_num) (by norm_num [abs_lt]) (by norm_num) 127099 (by norm_num)] at h
    rw [h]
    norm_num
  have h255159 : tick^[255159] State.initial = ⟨false, -1, 8388613 / 2048⟩ := by
    have h := Function.iterate_succ_apply' tick 255158 State.initial
    rw [h255158] at h
    exact h.trans (by decide!)
  have h509359 : tick^[509359] State.initial = ⟨false, -1, 16777213 / 2048⟩ := by
    have h := Function.iterate_add_apply tick 254200 255159 State.initial
    rw [h255159, show (8388613 / 2048 : ℚ) = (((8388613 : Int) : ℚ)) * (2 : ℚ) ^ (-11 : Int) by norm_num,
      iterate_tick_in_binade (-11) 8388613 33 (8589935 / 262144) (by norm_num) (by norm_num) (by norm_num)
        (by norm_num) (by norm_num [abs_lt]) (by norm_num) 254200 (by norm_num)] at h
    rw [h]
    norm_num
  have h509360 : tick^[509360] State.initial = ⟨false, -1, 8388623 / 1024⟩ := by
    have h := Function.iterate_succ_apply' tick 509359 State.initial
    rw [h509359] at h
    exact h.trans (by decide!)
  have h1033647 : tick^[1033647] State.initial = ⟨false, -1, 16777215 / 1024⟩ := by
    have h := Function.iterate_add_apply tick 524287 509360 State.initial
    rw [h509360, show (8388623 / 1024 : ℚ) = (((8388623 : Int) : ℚ)) * (2 : ℚ) ^ (-10 : Int) by norm_num,
      iterate_tick_in_binade (-10) 8388623 16 (8589935 / 524288) (by norm_num) (by norm_num) (by norm_num)
        (by norm_num) (by norm_num [abs_lt]) (by norm_num) 524287 (by norm_num)] at h
    rw [h]
    norm_num
  have h1033648 : tick^[1033648] State.initial = ⟨false, -1, 1048577 / 64⟩ := by
    have h := Function.iterate_succ_apply' tick 1033647 State.initial
    rw [h1033647] at h
    exact h.trans (by decide!)
  have h2082222 : tick^[2082222] State.initial = ⟨false, -1, 2097151 / 64⟩ := by
    have h := Function.iterate_add_apply tick 1048574 1033648 State.initial
    rw [h1033648, show (1048577 / 64 : ℚ) = (((8388616 : Int) : ℚ)) * (2 : ℚ) ^ (-9 : Int) by norm_num,
      iterate_tick_in_binade (-9) 8388616 8 (8589935 / 1048576) (by norm_num) (by norm_num) (by norm_num)
        (by norm_num) (by norm_num [abs_lt]) (by norm_num) 1048574 (by norm_num)] at h
    rw [h]
    norm_num
  have h2082223 : tick^[2082223] State.initial = ⟨false, -1, 32768⟩ := by
    have h := Function.iterate_succ_apply' tick 2082222 State.initial
    rw [h2082222] at h
    exact h.trans (by decide!)
  have h4179374 : tick^[4179374] State.initial = ⟨false, -1, 4194303 / 64⟩ := by
    have h := Function.iterate_add_apply tick 2097151 2082223 State.initial
    rw [h2082223, show (32768 : ℚ) = (((8388608 : Int) : ℚ)) * (2 : ℚ) ^ (-8 : Int) by norm_num,
      iterate_tick_in_binade (-8) 8388608 4 (8589935 / 2097152) (by norm_num) (by norm_num) (by norm_num)
        (by norm_num) (by norm_num [abs_lt]) (by norm_num) 2097151 (by norm_num)] at h
    rw [h]
    norm_num
  have h4179375 : tick^[4179375] State.initial = ⟨false, -1, 65536⟩ := by
    have h := Function.iterate_succ_apply' tick 4179374 State.initial
    rw [h4179374] at h
    exact h.trans (by decide!)
  have h8373678 : tick^[8373678] State.initial = ⟨false, -1, 8388607 / 64⟩ := by
    have h := Function.iterate_add_apply tick 4194303 4179375 State.initial
    rw [h4179375, show (65536 : ℚ) = (((8388608 : Int) : ℚ)) * (2 : ℚ) ^ (-7 : Int) by norm_num,
      iterate_tick_in_binade (-7) 8388608 2 (8589935 / 4194304) (by norm_num) (by norm_num) (by norm_num)
        (by norm_num) (by norm_num [abs_lt]) (by norm_num) 4194303 (by norm_num)] at h
    rw [h]
    norm_num
  have h8373679 : tick^[8373679] State.initial = ⟨false, -1, 131072⟩ := by
    have h := Function.iterate_succ_apply' tick 8373678 State.initial
    rw [h8373678] at h
    exact h.trans (by decide!)
  have h16762286 : tick^[16762286] State.initial = ⟨false, -1, 16777215 / 64⟩ := by
    have h := Function.iterate_add_apply tick 8388607 8373679 State.initial
    rw [h8373679, show (131072 : ℚ) = (((8388608 : Int) : ℚ)) * (2 : ℚ) ^ (-6 : Int) by norm_num,
      iterate_tick_in_binade (-6) 8388608 1 (8589935 / 8388608) (by norm_num) (by norm_num) (by norm_num)
        (by norm_num) (by norm_num [abs_lt]) (by norm_num) 8388607 (by norm_num)] at h
    rw [h]
    norm_num
  have h16762287 : tick^[16762287] State.initial = ⟨false, -1, 262144⟩ := by
    have h := Function.iterate_succ_apply' tick 16762286 State.initial
    rw [h16762286] at h
    exact h.trans (by decide!)
  have h25150895 : tick^[25150895] State.initial = ⟨false, -1, 524288⟩ := by
    have h := Function.iterate_add_apply tick 8388608 16762287 State.initial
    rw [h16762287, show (262144 : ℚ) = (((8388608 : Int) : ℚ)) * (2 : ℚ) ^ (-5 : Int) by norm_num,
      iterate_tick_in_binade (-5) 8388608 1 (8589935 / 16777216) (by norm_num) (by norm_num) (by norm_num)
        (by norm_num) (by norm_num [abs_lt]) (by norm_num) 8388608 (by norm_num)] at h
    rw [h]
    norm_num
  exact h25150895

theorem callback_binary32_elapsedTime (st : State) (button action mods : Int) (xpos ypos : ℚ) :
    (mouse_button_callback st button action mods xpos ypos).elapsedTime = st.elapsedTime := by
  by_cases h : button = GLFW_MOUSE_BUTTON_LEFT ∧ action = GLFW_PRESS
  · simp only [mouse_button_callback, h, and_self, if_true]
    cases scanGrid (normX xpos) (normY ypos) gridIndices <;> rfl
  · simp only [mouse_button_callback, h, if_false]

theorem step_binary32_elapsedTime (st : State) (e : Event) (he : e.isFrame = false) :
    (step st e).elapsedTime = st.elapsedTime := by
  cases e with
  | frame => simp [Event.isFrame] at he
  | mouseButton button action mods xpos ypos =>
    exact callback_binary32_elapsedTime st button action mods xpos ypos
  | framebufferSize w h => rfl
  | input esc => rfl

/-- A frame never lowers a clock that holds a binary32 value `≥ 0`, and
raises it exactly when it is below `524288`. -/
theorem tick_monotone (st : State) (hx : roundF32 st.elapsedTime = st.elapsedTime)
    (h0 : 0 ≤ st.elapsedTime) :
    st.elapsedTime ≤ (tick st).elapsedTime ∧
      (st.elapsedTime < (tick st).elapsedTime ↔ st.elapsedTime < 524288) := by
  rw [tick_elapsedTime]
  by_cases h : st.elapsedTime < 524288
  · have := lt_roundF32_add st.elapsedTime hx h0 h
    exact ⟨this.le, fun _ => h, fun _ => this⟩
  · have := roundF32_add_eq st.elapsedTime hx (not_lt.1 h)
    rw [this]
    exact ⟨le_rfl, fun h' => absurd h' (lt_irrefl _), fun h' => absurd h' h⟩

/-- One rounding: the new clock is within relative `2 ^ (-24)` of the sum. -/
theorem tick_relative_error (st : State) (h0 : 0 ≤ st.elapsedTime) :
    |(tick st).elapsedTime - (st.elapsedTime + roundF32 0.016)| ≤
      (st.elapsedTime + roundF32 0.016) / 16777216 := by
  rw [tick_elapsedTime, roundF32_clock_increment]
  have hy : (2 : ℚ) ^ (-126 : Int) ≤ st.elapsedTime + 8589935 / 536870912 := by
    have : (2 : ℚ) ^ (-126 : Int) ≤ 8589935 / 536870912 := by norm_num
    linarith
  have hpos : 0 < st.elapsedTime + 8589935 / 536870912 := lt_of_lt_of_le (by positivity) hy
  obtain ⟨s1, s2⟩ := floorLog2_spec _ hpos.ne'
  rw [abs_of_pos hpos] at s1 s2
  have hn : -126 ≤ floorLog2 (st.elapsedTime + 8589935 / 536870912) := by
    have := (zpow_lt_zpow_iff_right₀ (by norm_num : (1 : ℚ) < 2)).1 (lt_of_le_of_lt hy s2)
    omega
  have herr := roundF32_error (st.elapsedTime + 8589935 / 536870912)
  rw [max_eq_left (by omega)] at herr
  rw [two_zpow_split] at s1
  refine herr.trans ?_
  linarith

theorem tick_invariant (st : State) (hx : roundF32 st.elapsedTime = st.elapsedTime)
    (h0 : 0 ≤ st.elapsedTime) :
    roundF32 (tick st).elapsedTime = (tick st).elapsedTime ∧ 0 ≤ (tick st).elapsedTime := by
  refine ⟨?_, h0.trans (tick_monotone st hx h0).1⟩
  rw [tick_elapsedTime]
  apply roundF32_idempotent
  have : (2 : ℚ) ^ (-126 : Int) ≤ 8589935 / 536870912 := by norm_num
  linarith

theorem run_binary32_invariant (events : List Event) (st : State)
    (hx : roundF32 st.elapsedTime = st.elapsedTime) (h0 : 0 ≤ st.elapsedTime) :
    roundF32 (run st events).elapsedTime = (run st events).elapsedTime ∧
      0 ≤ (run st events).elapsedTime := by
  induction events generalizing st with
  | nil => exact ⟨hx, h0⟩
  | cons e es ih =>
    have hrun : run st (e :: es) = run (step st e) es := rfl
    rw [hrun]
    by_cases he : e.isFrame = true
    · cases e with
      | frame => exact ih (tick st) (tick_invariant st hx h0).1 (tick_invariant st hx h0).2
      | mouseButton button action mods xpos ypos => simp [Event.isFrame] at he
      | framebufferSize w h => simp [Event.isFrame] at he
      | input esc => simp [Event.isFrame] at he
    · have hs := step_binary32_elapsedTime st e (by simpa using he)
      exact ih (step st e) (by rw [hs]; exact hx) (by rw [hs]; exact h0)

theorem roundF32_zero : roundF32 0 = 0 := by decide!

end Binary32

/-! ## Clicks outside the boxes: what the claim says and what binary32 does -/

/-- C2, as the program runs it: the cursor position `(230686721 / 524288, 400)`
has its exact normalised point in none of the 36 closed boxes (it lies
`4.8e-9` to the right of the box of column 2), yet the left press selects
index 14: the cursor narrows to `440.0f`, `x` becomes `0.1f`, and the edge
`0.0f + 0.1f` is `0.1f` too. -/
theorem C2_outside_exact_boxes_selected :
    (∀ i j : Int, 0 ≤ i → i < 6 → 0 ≤ j → j < 6 →
      ¬ ((((i : ℚ) - 2) * 0.4 - 0.1 ≤ (230686721 / 524288 : ℚ) / 800 * 2 - 1 ∧
          (230686721 / 524288 : ℚ) / 800 * 2 - 1 ≤ ((i : ℚ) - 2) * 0.4 + 0.1) ∧
        (((j : ℚ) - 2) * 0.4 - 0.1 ≤ 1 - (400 : ℚ) / 800 * 2 ∧
          1 - (400 : ℚ) / 800 * 2 ≤ ((j : ℚ) - 2) * 0.4 + 0.1))) ∧
      (Binary32.mouse_button_callback State.initial GLFW_MOUSE_BUTTON_LEFT GLFW_PRESS 0
        (230686721 / 524288) 400).selection = (true, 14) := by
  refine ⟨?_, by decide!⟩
  intro i j hi0 hi6 _ _ h
  obtain ⟨⟨h1, h2⟩, -⟩ := h
  interval_cases i <;> norm_num at h1 h2

/-- C2, amended: for a cursor position whose normalised point as lines 94-95
compute it (cursor narrowed to `float`, `double` arithmetic, result stored as
`float`) lies in none of the 36 closed boxes with the `float` edges of line
102, and in particular for every cursor position whose exact normalised point
lies in none of the 36 closed boxes enlarged by `1e-6` on every side, a
left-button press leaves the selection equal to `(false, -1)`, whatever the
state was before. -/
theorem C2_click_outside_clears_binary32 (st : State) (mods : Int) (xpos ypos : ℚ)
    (hout :
      (∀ i j : Int, 0 ≤ i → i < 6 → 0 ≤ j → j < 6 →
        ¬ ((Binary32.roundF32 (Binary32.sphereX i - Binary32.roundF32 0.1) ≤ Binary32.normX xpos ∧
            Binary32.normX xpos ≤ Binary32.roundF32 (Binary32.sphereX i + Binary32.roundF32 0.1)) ∧
          (Binary32.roundF32 (Binary32.sphereY j - Binary32.roundF32 0.1) ≤ Binary32.normY ypos ∧
            Binary32.normY ypos ≤
              Binary32.roundF32 (Binary32.sphereY j + Binary32.roundF32 0.1)))) ∨
      (∀ i j : Int, 0 ≤ i → i < 6 → 0 ≤ j → j < 6 →
        ¬ ((((i : ℚ) - 2) * 0.4 - 0.1 - 1 / 1000000 ≤ xpos / 800 * 2 - 1 ∧
            xpos / 800 * 2 - 1 ≤ ((i : ℚ) - 2) * 0.4 + 0.1 + 1 / 1000000) ∧
          (((j : ℚ) - 2) * 0.4 - 0.1 - 1 / 1000000 ≤ 1 - ypos / 800 * 2 ∧
            1 - ypos / 800 * 2 ≤ ((j : ℚ) - 2) * 0.4 + 0.1 + 1 / 1000000)))) :
    (Binary32.mouse_button_callback st GLFW_MOUSE_BUTTON_LEFT GLFW_PRESS mods xpos ypos).selection =
      (false, -1) := by
  apply Binary32.callback_binary32_of_no_hit
  intro i hi j hj
  rw [mem_gridIndices] at hi hj
  rw [Bool.eq_false_iff]
  intro hh
  rcases hout with h | h
  · exact h i j hi.1 hi.2 hj.1 hj.2 ((Binary32.hitTest_binary32_iff _ _ i j).1 hh)
  · exact h i j hi.1 hi.2 hj.1 hj.2 (Binary32.near_box_of_hit xpos ypos i j hi hj hh)

/-- C2, concrete input: the click at window coordinate `(0, 0)`, whose exact
normalised point `(-1, 1)` is further than `1e-6` from every box, clears the
selection, here from a state in which cell 14 was selected. -/
theorem C2_click_outside_clears_binary32_witness :
    (Binary32.mouse_button_callback
      { isSphereSelected := true, selectedSphereIndex := 14, elapsedTime := 0 }
      GLFW_MOUSE_BUTTON_LEFT GLFW_PRESS 0 0 0).selection = (false, -1) :=
  C2_click_outside_clears_binary32 _ 0 0 0 (Or.inr (by
    intro i j hi _ _ _ h
    have hi' : (0 : ℚ) ≤ (i : ℚ) := by exact_mod_cast hi
    have h1 := h.1.1
    norm_num at h1
    linarith))

/-! ## Elapsed time: what the claim says and what binary32 does -/

/-- C6, as the program runs it: after 25150895 frames from the initial state
the clock is `524288`, and frame 25150896 leaves it at `524288`, so the clock
is not strictly greater after that frame than before it. -/
theorem C6_frame_without_increase :
    (Binary32.tick^[25150895] State.initial).elapsedTime = 524288 ∧
      (Binary32.tick^[25150896] State.initial).elapsedTime = 524288 ∧
      ¬ ((Binary32.tick^[25150895] State.initial).elapsedTime <
        (Binary32.tick^[25150896] State.initial).elapsedTime) := by
  have h1 := Binary32.clock_reaches_524288
  have h2 : Binary32.tick^[25150896] State.initial = ⟨false, -1, 524288⟩ := by
    have h := Function.iterate_succ_apply' Binary32.tick 25150895 State.initial
    rw [h1] at h
    exact h.trans (by decide!)
  rw [h1, h2]
  exact ⟨rfl, rfl, lt_irrefl _⟩

/-- C6, amended: in exact arithmetic `n` iterations of the render loop from 0
give `n * 0.016`.  In binary32, in every state reachable from the initial
state, a frame replaces the clock by the `float` nearest to the clock plus
`0.016f`, within relative error `2 ^ (-24)` of that sum; the clock after the
frame is never smaller than before and is strictly greater exactly when the
clock before was below `524288`; an event other than a frame leaves the clock
unchanged. -/
theorem C6_elapsed_time_binary32 (L : FloatLib) (n : Nat) (events : List Event) (e : Event) :
    ((fun s => (renderFrame L s).1)^[n] State.initial).elapsedTime = (n : ℚ) * 0.016 ∧
      (Binary32.run State.initial events).elapsedTime ≤
        (Binary32.tick (Binary32.run State.initial events)).elapsedTime ∧
      ((Binary32.run State.initial events).elapsedTime <
          (Binary32.tick (Binary32.run State.initial events)).elapsedTime ↔
        (Binary32.run State.initial events).elapsedTime < 524288) ∧
      |(Binary32.tick (Binary32.run State.initial events)).elapsedTime -
            ((Binary32.run State.initial events).elapsedTime + Binary32.roundF32 0.016)| ≤
          ((Binary32.run State.initial events).elapsedTime + Binary32.roundF32 0.016) / 16777216 ∧
      (e.isFrame = false →
        (Binary32.step (Binary32.run State.initial events) e).elapsedTime =
          (Binary32.run State.initial events).elapsedTime) := by
  obtain ⟨hx, h0⟩ := Binary32.run_binary32_invariant events State.initial
    Binary32.roundF32_zero le_rfl
  obtain ⟨m1, m2⟩ := Binary32.tick_monotone _ hx h0
  refine ⟨?_, m1, m2, Binary32.tick_relative_error _ h0,
    Binary32.step_binary32_elapsedTime _ e⟩
  rw [iterate_renderFrame_elapsedTime]
  simp [State.initial]

/-- C6, concrete input: after two frames a left press at `(400, 400)` leaves
the binary32 clock where the frames put it. -/
theorem C6_elapsed_time_binary32_witness :
    (Binary32.step (Binary32.run State.initial [Event.frame, Event.frame])
        (Event.mouseButton 0 1 0 400 400)).elapsedTime =
      (Binary32.run State.initial [Event.frame, Event.frame]).elapsedTime :=
  (C6_elapsed_time_binary32 ⟨fun _ => 0, fun _ => 1, 355 / 113⟩ 2 [Event.frame, Event.frame]
    (Event.mouseButton 0 1 0 400 400)).2.2.2.2 rfl

/-! ## Cell centres: what the claim says and what binary32 does -/

/-- C7, as the program runs it: the centre of column 3 is `0.4f`, not `0.4`,
and the step from column 4 to column 5 is neither `0.4` nor the step between
the other columns. -/
theorem C7_centres_not_exact :
    Binary32.sphereX 3 ≠ ((3 : ℚ) - 2) * 0.4 ∧
      Binary32.sphereX 5 - Binary32.sphereX 4 ≠ 0.4 ∧
      Binary32.sphereX 5 - Binary32.sphereX 4 ≠ Binary32.sphereX 4 - Binary32.sphereX 3 := by
  decide!

/-- C7, amended: for `i, j` in `[0,6)` the centre of cell `(i, j)` is the same
binary32 product `((i-2) * 0.4f, (j-2) * 0.4f)` in the picker and in the render
loop's translation, within `5e-8` of `((i-2)*0.4, (j-2)*0.4)`; along each axis
the six centres are strictly increasing in the index, and consecutive centres
differ by
`0.4f = 13421773 / 33554432`, except the step from index 4 to 5, which is
`0.4f + 2 ^ (-25)`. -/
theorem C7_cell_centres_binary32 (i j : Int) (hi : 0 ≤ i ∧ i < 6) (hj : 0 ≤ j ∧ j < 6) :
    (Binary32.sphereX i = Binary32.translationX i ∧
        Binary32.sphereY j = Binary32.translationY j) ∧
      (|Binary32.sphereX i - ((i : ℚ) - 2) * 0.4| ≤ 5 / 100000000 ∧
        |Binary32.sphereY j - ((j : ℚ) - 2) * 0.4| ≤ 5 / 100000000) ∧
      (i < j → Binary32.sphereX i < Binary32.sphereX j ∧
        Binary32.sphereY i < Binary32.sphereY j) ∧
      (i < 4 → Binary32.sphereX (i + 1) - Binary32.sphereX i = 13421773 / 33554432) ∧
      (j < 4 → Binary32.sphereY (j + 1) - Binary32.sphereY j = 13421773 / 33554432) ∧
      Binary32.sphereX 5 - Binary32.sphereX 4 = 13421773 / 33554432 + 1 / 33554432 ∧
      Binary32.sphereY 5 - Binary32.sphereY 4 = 13421773 / 33554432 + 1 / 33554432 ∧
      Binary32.roundF32 0.4 = 13421773 / 33554432 := by
  obtain ⟨hi0, hi6⟩ := hi
  obtain ⟨hj0, hj6⟩ := hj
  refine ⟨⟨rfl, rfl⟩, ⟨?_, ?_⟩, ?_, ?_, ?_, by decide!, by decide!, by decide!⟩
  · interval_cases i <;> decide!
  · interval_cases j <;> decide!
  · interval_cases i <;> interval_cases j <;> decide!
  · interval_cases i <;> decide!
  · interval_cases j <;> decide!

/-- C7, concrete input: indices 1 and 3; the centres of index 1 lie before the
centres of index 3 on both axes. -/
theorem C7_cell_centres_binary32_witness :
    Binary32.sphereX 1 < Binary32.sphereX 3 ∧ Binary32.sphereY 1 < Binary32.sphereY 3 :=
  (C7_cell_centres_binary32 1 3 (by decide) (by decide)).2.2.1 (by decide)

end GridOfSpheres
